import Mathlib

/-!
# Timeslot session manager (`src/timeslot.c`)

A shallow embedding of the module's static state, of its three public
functions (`timeslot_open`, `timeslot_start`, `timeslot_stop`), of the MPSL
signal callback `mpsl_cb` and of one pass of the worker loop
`timeslot_thread_fn`, followed by theorems about them.

Conventions of the embedding.

* The statics of the C file are the fields of `State`; every function takes
  the state and returns the new one.
* Calls that leave the module (requests to the MPSL, the session-open call,
  the application callbacks) are recorded, in program order, in a list of
  `Event`s.  What the MPSL answers to a call is an argument of the function
  that makes the call.
* `uint8_t` / `uint32_t` arithmetic is arithmetic on `Nat` reduced modulo
  `2^8` / `2^32` at the places where the C code computes.
* A dereference of a null `p_timeslot_config` / `p_timeslot_callbacks`, or a
  call through a null member of the callback table, has no defined result:
  the function returns `none`.
* GPIO debug pins and logging are left out.
-/

namespace Timeslot

/-! ## Types coming from headers -/

/-- Modelled from the spec: the `TIMESLOT_ERROR_*` constants of `timeslot.h`,
which is not among the sources.  Only their names are used; their numeric
values are not fixed here. -/
inductive TIMESLOT_ERROR
  | SESSION_ALREADY_OPENED
  | INVALID_PARAM
  | NO_TIMESLOT_STARTED
  | TIMESLOT_ALREADY_STARTED
  | CANCELLED
  | ANCHOR_FAILED
  | OVERSTAYED
  | INTERNAL
  deriving DecidableEq, Repr

/-- An `int` status as the module produces it: `code n` is the integer `n`
(the literal `0` of `return 0;`, or a value returned by an MPSL call), `neg e`
is `-TIMESLOT_ERROR_e`, a non-zero value. -/
inductive Status
  | code (n : Int)
  | neg (e : TIMESLOT_ERROR)
  deriving DecidableEq, Repr

/-- `MPSL_TIMESLOT_PRIORITY_*` of `mpsl_timeslot.h`. -/
inductive Priority
  | HIGH
  | NORMAL
  deriving DecidableEq, Repr

/-- The `uint32_t signal` argument of `mpsl_cb`, decoded against the
`MPSL_TIMESLOT_SIGNAL_*` constants of `mpsl_timeslot.h`; `UNRECOGNIZED v` is
any value that is none of them (the `default:` label). -/
inductive MpslSignal
  | START
  | TIMER0
  | RADIO
  | BLOCKED
  | CANCELLED
  | SESSION_IDLE
  | EXTEND_FAILED
  | EXTEND_SUCCEEDED
  | INVALID_RETURN
  | SESSION_CLOSED
  | OVERSTAYED
  | UNRECOGNIZED (v : Nat)
  deriving DecidableEq, Repr

/-- Modelled from the spec: `struct timeslot_config` of `timeslot.h`, which is
not among the sources; the four members are the ones `timeslot.c` reads. -/
structure timeslot_config where
  hfclk : Nat
  timeout_us : Nat
  safety_margin_us : Nat
  skipped_tolerance : Nat
  deriving DecidableEq, Repr

/-- Modelled from the spec: `struct timeslot_cb` of `timeslot.h`, which is not
among the sources.  Each member is a function pointer; the field says whether
it is non-null. -/
structure timeslot_cb where
  start : Bool
  end_ : Bool
  error : Bool
  skipped : Bool
  stopped : Bool
  radio_irq : Bool
  deriving DecidableEq, Repr

/-- The `params.earliest` member of `mpsl_timeslot_request_t`. -/
structure EarliestParams where
  hfclk : Nat
  priority : Priority
  length_us : Nat
  timeout_us : Nat
  deriving DecidableEq, Repr

/-- The `params.normal` member of `mpsl_timeslot_request_t`. -/
structure NormalParams where
  hfclk : Nat
  priority : Priority
  distance_us : Nat
  length_us : Nat
  deriving DecidableEq, Repr

/-- A `mpsl_timeslot_request_t` as the MPSL sees it: `request_type` and the
matching member of `params`. -/
inductive Request
  | EARLIEST (p : EarliestParams)
  | NORMAL (p : NormalParams)
  deriving DecidableEq, Repr

/-- The `mpsl_timeslot_signal_return_param_t` that `mpsl_cb` points the MPSL
at: `action_none`, `action_end`, or `action_request_normal` together with the
contents of `request_normal` at the moment of the return. -/
inductive Action
  | NONE
  | END
  | REQUEST (p_next : Request)
  deriving DecidableEq, Repr

/-- The `k_poll_signal` object `timeslot_sig`. -/
structure k_poll_signal where
  signaled : Bool
  result : Nat
  deriving DecidableEq, Repr

/-- Calls that leave the module, in the order the code makes them. -/
inductive Event
  | mpsl_timeslot_session_open
  | mpsl_timeslot_request (session_id : Nat) (req : Request)
  | cb_start
  | cb_end
  | cb_radio_irq
  | cb_error (reason : Status)
  | cb_skipped (count : Nat)
  | cb_stopped
  | RADIO_IRQHandler
  deriving DecidableEq, Repr

/-! ## `enum SIGNAL_CODE` -/

def SIGNAL_CODE_START : Nat := 0
def SIGNAL_CODE_TIMER0 : Nat := 1
def SIGNAL_CODE_RADIO : Nat := 2
def SIGNAL_CODE_BLOCKED_CANCELLED : Nat := 3
def SIGNAL_CODE_OVERSTAYED : Nat := 4
def SIGNAL_CODE_IDLE : Nat := 5
def SIGNAL_CODE_UNEXPECTED : Nat := 6

/-! ## The module's state -/

/-- The statics of `timeslot.c`, the three TIMER0 / NVIC settings `mpsl_cb`
writes, and `thread_returned`, which records that `timeslot_thread_fn` has
executed its `return`. -/
structure State where
  conn_interval_us : Nat
  ts_len_us : Nat
  blocked_cancelled_count : Nat
  session_open : Bool
  timeslot_anchored : Bool
  timeslot_started : Bool
  timeslot_stopping : Bool
  p_timeslot_config : Option timeslot_config
  p_timeslot_callbacks : Option timeslot_cb
  timeslot_sig : k_poll_signal
  mpsl_session_id : Nat
  request_earliest : EarliestParams
  request_normal : NormalParams
  timer0_intenset_compare0 : Bool
  timer0_cc0 : Nat
  timer0_irq_enabled : Bool
  thread_returned : Bool
  deriving DecidableEq, Repr

/-- The state at program start: zero-initialised statics, `request_earliest`
with its initialiser `.priority = MPSL_TIMESLOT_PRIORITY_NORMAL`, and
`request_normal` zero-initialised apart from its type (priority value 0 is
`MPSL_TIMESLOT_PRIORITY_HIGH`). -/
def State.init : State where
  conn_interval_us := 0
  ts_len_us := 0
  blocked_cancelled_count := 0
  session_open := false
  timeslot_anchored := false
  timeslot_started := false
  timeslot_stopping := false
  p_timeslot_config := none
  p_timeslot_callbacks := none
  timeslot_sig := { signaled := false, result := 0 }
  mpsl_session_id := 0
  request_earliest := { hfclk := 0, priority := Priority.NORMAL, length_us := 0, timeout_us := 0 }
  request_normal := { hfclk := 0, priority := Priority.HIGH, distance_us := 0, length_us := 0 }
  timer0_intenset_compare0 := false
  timer0_cc0 := 0
  timer0_irq_enabled := false
  thread_returned := false

/-- What a public function hands back: the new state, the returned `int`, and
the outside calls it made. -/
structure ApiResult where
  st : State
  ret : Status
  trace : List Event
  deriving DecidableEq, Repr

/-- What `mpsl_cb` hands back: the new state, the action returned to the
MPSL, and the outside calls it made. -/
structure CbResult where
  st : State
  action : Action
  trace : List Event
  deriving DecidableEq, Repr

/-- `k_poll_signal_raise(&timeslot_sig, result)`: stores the result and marks
the signal as raised; an unconsumed earlier result is overwritten. -/
def k_poll_signal_raise (s : State) (result : Nat) : State :=
  { s with timeslot_sig := { signaled := true, result := result } }

/-! ## `mpsl_cb` -/

/-- `mpsl_cb` (lines 87-175).  `calls_radio_irqhandler` is the build-time
macro `TIMESLOT_CALLS_RADIO_IRQHANDLER`. -/
def mpsl_cb (calls_radio_irqhandler : Bool) (s : State) (signal : MpslSignal) :
    Option CbResult :=
  match signal with
  | MpslSignal.START =>
    if s.timeslot_stopping then
      some { st := s, action := Action.END, trace := [] }
    else
      match s.p_timeslot_config with
      | none => none
      | some cfg =>
        let s1 := { s with
          timer0_intenset_compare0 := true
          timer0_cc0 :=
            (s.ts_len_us + (4294967296 - cfg.safety_margin_us % 4294967296)) % 4294967296
          timer0_irq_enabled := true }
        some { st := k_poll_signal_raise s1 SIGNAL_CODE_START, action := Action.NONE, trace := [] }
  | MpslSignal.TIMER0 =>
    let s1 := k_poll_signal_raise s SIGNAL_CODE_TIMER0
    if s1.timeslot_stopping then
      some { st := s1, action := Action.END, trace := [] }
    else
      let s2 := { s1 with
        request_normal := { s1.request_normal with
          distance_us := s1.conn_interval_us
          priority := Priority.NORMAL } }
      some { st := s2, action := Action.REQUEST (Request.NORMAL s2.request_normal), trace := [] }
  | MpslSignal.RADIO =>
    if s.timeslot_stopping then
      some { st := s, action := Action.END, trace := [] }
    else if calls_radio_irqhandler then
      some { st := s, action := Action.NONE, trace := [Event.RADIO_IRQHandler] }
    else
      some { st := k_poll_signal_raise s SIGNAL_CODE_RADIO, action := Action.NONE, trace := [] }
  | MpslSignal.BLOCKED =>
    some { st := k_poll_signal_raise s SIGNAL_CODE_BLOCKED_CANCELLED,
           action := Action.NONE, trace := [] }
  | MpslSignal.CANCELLED =>
    some { st := k_poll_signal_raise s SIGNAL_CODE_BLOCKED_CANCELLED,
           action := Action.NONE, trace := [] }
  | MpslSignal.SESSION_IDLE =>
    some { st := k_poll_signal_raise s SIGNAL_CODE_IDLE, action := Action.NONE, trace := [] }
  | MpslSignal.EXTEND_FAILED =>
    some { st := k_poll_signal_raise s SIGNAL_CODE_UNEXPECTED, action := Action.NONE, trace := [] }
  | MpslSignal.EXTEND_SUCCEEDED =>
    some { st := k_poll_signal_raise s SIGNAL_CODE_UNEXPECTED, action := Action.NONE, trace := [] }
  | MpslSignal.INVALID_RETURN =>
    some { st := k_poll_signal_raise s SIGNAL_CODE_UNEXPECTED, action := Action.NONE, trace := [] }
  | MpslSignal.SESSION_CLOSED =>
    some { st := k_poll_signal_raise s SIGNAL_CODE_UNEXPECTED, action := Action.NONE, trace := [] }
  | MpslSignal.OVERSTAYED =>
    some { st := k_poll_signal_raise s SIGNAL_CODE_OVERSTAYED, action := Action.NONE, trace := [] }
  | MpslSignal.UNRECOGNIZED _ =>
    some { st := s, action := Action.NONE, trace := [] }

/-! ## Public functions -/

/-- `timeslot_stop` (lines 177-185). -/
def timeslot_stop (s : State) : ApiResult :=
  if !s.session_open || !s.timeslot_started then
    { st := s, ret := Status.neg TIMESLOT_ERROR.NO_TIMESLOT_STARTED, trace := [] }
  else
    { st := { s with timeslot_stopping := true }, ret := Status.code 0, trace := [] }

/-- `timeslot_start` (lines 187-203).  `mpsl_ret` is what
`mpsl_timeslot_request` returns for the request. -/
def timeslot_start (s : State) (len_us interval_us : Nat) (mpsl_ret : Int) : ApiResult :=
  if !s.session_open || s.timeslot_started || s.timeslot_stopping then
    { st := s, ret := Status.neg TIMESLOT_ERROR.TIMESLOT_ALREADY_STARTED, trace := [] }
  else
    let s1 := { s with
      ts_len_us := len_us
      conn_interval_us := interval_us
      blocked_cancelled_count := 0
      timeslot_started := true
      request_normal := { s.request_normal with length_us := len_us }
      request_earliest := { s.request_earliest with length_us := len_us } }
    { st := s1
      ret := Status.code mpsl_ret
      trace := [Event.mpsl_timeslot_request s1.mpsl_session_id
                  (Request.EARLIEST s1.request_earliest)] }

/-- `timeslot_open` (lines 205-248).  `mpsl_ret` is what
`mpsl_timeslot_session_open` returns and `session_id` is the value it leaves
in `mpsl_session_id`. -/
def timeslot_open (calls_radio_irqhandler : Bool) (s : State)
    (p_config : Option timeslot_config) (p_cb : Option timeslot_cb)
    (mpsl_ret : Int) (session_id : Nat) : ApiResult :=
  if s.session_open then
    { st := s, ret := Status.neg TIMESLOT_ERROR.SESSION_ALREADY_OPENED, trace := [] }
  else
    match p_config with
    | none => { st := s, ret := Status.neg TIMESLOT_ERROR.INVALID_PARAM, trace := [] }
    | some cfg =>
      match p_cb with
      | none => { st := s, ret := Status.neg TIMESLOT_ERROR.INVALID_PARAM, trace := [] }
      | some cb =>
        if !cb.error || !cb.start || !cb.end_ then
          { st := s, ret := Status.neg TIMESLOT_ERROR.INVALID_PARAM, trace := [] }
        else if !calls_radio_irqhandler && !cb.radio_irq then
          { st := s, ret := Status.neg TIMESLOT_ERROR.INVALID_PARAM, trace := [] }
        else
          let s1 := { s with
            p_timeslot_config := some cfg
            p_timeslot_callbacks := some cb
            request_normal := { s.request_normal with hfclk := cfg.hfclk }
            request_earliest := { s.request_earliest with
              hfclk := cfg.hfclk
              timeout_us := cfg.timeout_us }
            mpsl_session_id := session_id }
          if mpsl_ret ≠ 0 then
            { st := s1, ret := Status.code mpsl_ret,
              trace := [Event.mpsl_timeslot_session_open] }
          else
            { st := { s1 with session_open := true }, ret := Status.code 0,
              trace := [Event.mpsl_timeslot_session_open] }

/-! ## Worker thread -/

/-- A call `p_timeslot_callbacks->member(...)`: the event `e` when the table
and the member are there, no defined result otherwise. -/
def call_cb (s : State) (member : timeslot_cb → Bool) (e : Event) : Option (List Event) :=
  match s.p_timeslot_callbacks with
  | none => none
  | some cb => if member cb then some [e] else none

/-- `timeslot_stopped` (lines 250-258). -/
def timeslot_stopped (s : State) : Option (State × List Event) :=
  let s1 := { s with
    timeslot_stopping := false
    timeslot_started := false
    timeslot_anchored := false }
  (call_cb s1 timeslot_cb.stopped Event.cb_stopped).map fun tr => (s1, tr)

/-- The retry of the `SIGNAL_CODE_BLOCKED_CANCELLED` case (lines 302-316),
entered with the counter already incremented, within tolerance and not
stopping: the request, the `error` callback when the MPSL rejects it, and the
`skipped` callback. -/
def thread_retry (s1 : State) (mpsl_ret : Int) : Option (State × List Event) :=
  let s2 :=
    if s1.timeslot_anchored then
      { s1 with
        request_normal := { s1.request_normal with
          distance_us := (s1.conn_interval_us * (s1.blocked_cancelled_count + 1)) % 4294967296
          priority := Priority.HIGH } }
    else s1
  let req :=
    if s1.timeslot_anchored then Request.NORMAL s2.request_normal
    else Request.EARLIEST s2.request_earliest
  let tr_req := [Event.mpsl_timeslot_request s2.mpsl_session_id req]
  if mpsl_ret ≠ 0 then
    let s3 := { s2 with timeslot_started := false, timeslot_stopping := false }
    (call_cb s3 timeslot_cb.error (Event.cb_error (Status.code mpsl_ret))).bind fun tr_err =>
      (call_cb s3 timeslot_cb.skipped (Event.cb_skipped s3.blocked_cancelled_count)).map
        fun tr_sk => (s3, tr_req ++ tr_err ++ tr_sk)
  else
    (call_cb s2 timeslot_cb.skipped (Event.cb_skipped s2.blocked_cancelled_count)).map
      fun tr_sk => (s2, tr_req ++ tr_sk)

/-- The `SIGNAL_CODE_BLOCKED_CANCELLED` case (lines 284-316).  The `return` of
line 296 sets `thread_returned`. -/
def thread_blocked_cancelled (s : State) (mpsl_ret : Int) : Option (State × List Event) :=
  let s1 := { s with blocked_cancelled_count := (s.blocked_cancelled_count + 1) % 256 }
  match s1.p_timeslot_config with
  | none => none
  | some cfg =>
    if s1.blocked_cancelled_count > cfg.skipped_tolerance then
      let reason :=
        if s1.timeslot_anchored then Status.neg TIMESLOT_ERROR.CANCELLED
        else Status.neg TIMESLOT_ERROR.ANCHOR_FAILED
      (call_cb s1 timeslot_cb.error (Event.cb_error reason)).map fun tr =>
        ({ s1 with thread_returned := true }, tr)
    else if s1.timeslot_stopping then
      timeslot_stopped s1
    else
      thread_retry s1 mpsl_ret

/-- The `SIGNAL_CODE_IDLE` case (lines 318-325). -/
def thread_idle (s : State) : Option (State × List Event) :=
  if s.timeslot_stopping then
    timeslot_stopped s
  else
    (call_cb s timeslot_cb.error
      (Event.cb_error (Status.neg TIMESLOT_ERROR.INTERNAL))).map fun tr => (s, tr)

/-- The `switch` of `timeslot_thread_fn` (lines 267-340) on the signal result
`result`; `mpsl_ret` is what `mpsl_timeslot_request` returns should this pass
make a request. -/
def thread_switch (calls_radio_irqhandler : Bool) (s : State) (result : Nat)
    (mpsl_ret : Int) : Option (State × List Event) :=
  if result = SIGNAL_CODE_START then
    (call_cb s timeslot_cb.start Event.cb_start).map fun tr =>
      ({ s with blocked_cancelled_count := 0, timeslot_anchored := true }, tr)
  else if result = SIGNAL_CODE_TIMER0 then
    (call_cb s timeslot_cb.end_ Event.cb_end).map fun tr => (s, tr)
  else if result = SIGNAL_CODE_RADIO ∧ calls_radio_irqhandler = false then
    (call_cb s timeslot_cb.radio_irq Event.cb_radio_irq).map fun tr => (s, tr)
  else if result = SIGNAL_CODE_BLOCKED_CANCELLED then
    thread_blocked_cancelled s mpsl_ret
  else if result = SIGNAL_CODE_IDLE then
    thread_idle s
  else if result = SIGNAL_CODE_OVERSTAYED then
    (call_cb s timeslot_cb.error
      (Event.cb_error (Status.neg TIMESLOT_ERROR.OVERSTAYED))).map fun tr => (s, tr)
  else
    (call_cb s timeslot_cb.error
      (Event.cb_error (Status.neg TIMESLOT_ERROR.INTERNAL))).map fun tr => (s, tr)

/-- One pass of the `while (true)` loop of `timeslot_thread_fn` (lines
264-344).  While the thread has returned, or `k_poll` has no raised signal to
report, nothing happens.  Otherwise the switch runs on the stored result and,
unless it returned from the function, the signal is marked consumed. -/
def thread_iteration (calls_radio_irqhandler : Bool) (s : State) (mpsl_ret : Int) :
    Option (State × List Event) :=
  if s.thread_returned || !s.timeslot_sig.signaled then
    some (s, [])
  else
    (thread_switch calls_radio_irqhandler s s.timeslot_sig.result mpsl_ret).map fun r =>
      if r.1.thread_returned then r
      else ({ r.1 with timeslot_sig := { r.1.timeslot_sig with signaled := false } }, r.2)

/-! ## The whole system: one input at a time -/

/-- What can happen next: the application calls one of the public functions,
the MPSL delivers a signal to `mpsl_cb`, or the worker thread makes one pass
of its loop.  Each carries what the outside supplies to that step. -/
inductive Input
  | timeslot_open (p_config : Option timeslot_config) (p_cb : Option timeslot_cb)
      (mpsl_ret : Int) (session_id : Nat)
  | timeslot_start (len_us interval_us : Nat) (mpsl_ret : Int)
  | timeslot_stop
  | mpsl_cb (signal : MpslSignal)
  | thread_iteration (mpsl_ret : Int)
  deriving DecidableEq, Repr

/-- One step of the system on input `i`: the new state and the outside calls
made, or `none` when the step has no defined result. -/
def step (calls_radio_irqhandler : Bool) (s : State) (i : Input) :
    Option (State × List Event) :=
  match i with
  | Input.timeslot_open p_config p_cb mpsl_ret session_id =>
    let r := timeslot_open calls_radio_irqhandler s p_config p_cb mpsl_ret session_id
    some (r.st, r.trace)
  | Input.timeslot_start len_us interval_us mpsl_ret =>
    let r := timeslot_start s len_us interval_us mpsl_ret
    some (r.st, r.trace)
  | Input.timeslot_stop =>
    let r := timeslot_stop s
    some (r.st, r.trace)
  | Input.mpsl_cb signal =>
    (mpsl_cb calls_radio_irqhandler s signal).map fun r => (r.st, r.trace)
  | Input.thread_iteration mpsl_ret =>
    thread_iteration calls_radio_irqhandler s mpsl_ret

/-- The steps for a list of inputs, one after the other, with the outside
calls of all of them in order. -/
def run (calls_radio_irqhandler : Bool) (s : State) : List Input → Option (State × List Event)
  | [] => some (s, [])
  | i :: rest =>
    match step calls_radio_irqhandler s i with
    | none => none
    | some (s1, tr1) =>
      match run calls_radio_irqhandler s1 rest with
      | none => none
      | some (s2, tr2) => some (s2, tr1 ++ tr2)

/-- The input is a call of `timeslot_start`. -/
def Input.isStart : Input → Bool
  | Input.timeslot_start _ _ _ => true
  | _ => false

/-- The event is a request to the MPSL. -/
def Event.isRequest : Event → Bool
  | Event.mpsl_timeslot_request _ _ => true
  | _ => false

/-- The event is an `error` callback. -/
def Event.isError : Event → Bool
  | Event.cb_error _ => true
  | _ => false

/-! ## Invariants of the request buffers -/

/-- The request buffers agree with the stored configuration and slot length:
`request_earliest` keeps its initial priority, both buffers hold the clock
source (and the Earliest one the timeout) of the stored configuration, an
open session has a stored configuration, and both buffers hold the stored
slot length. -/
def BuffersInv (s : State) : Prop :=
  s.request_earliest.priority = Priority.NORMAL ∧
  (s.session_open = true → s.p_timeslot_config ≠ none) ∧
  (∀ cfg, s.p_timeslot_config = some cfg →
    s.request_earliest.hfclk = cfg.hfclk ∧
    s.request_earliest.timeout_us = cfg.timeout_us ∧
    s.request_normal.hfclk = cfg.hfclk) ∧
  s.request_normal.length_us = s.ts_len_us ∧
  s.request_earliest.length_us = s.ts_len_us

/-- The input is a signal delivery to `mpsl_cb` or a pass of the worker loop. -/
def Input.isSignalOrWorker : Input → Bool
  | Input.mpsl_cb _ => true
  | Input.thread_iteration _ => true
  | _ => false

/-- A configuration used in the worked scenarios: tolerance 3. -/
def scenarioConfig : timeslot_config :=
  { hfclk := 1, timeout_us := 2000000, safety_margin_us := 100, skipped_tolerance := 3 }

/-- A callback table with every member set. -/
def scenarioCallbacks : timeslot_cb :=
  { start := true, end_ := true, error := true, skipped := true, stopped := true,
    radio_irq := true }

/-- The state after `open(valid)`, `start(1000, 10000)` accepted, one
slot-start delivered and handled: an anchored session with count 0. -/
def scenarioAnchored : State :=
  { State.init with
    conn_interval_us := 10000
    ts_len_us := 1000
    session_open := true
    timeslot_anchored := true
    timeslot_started := true
    p_timeslot_config := some scenarioConfig
    p_timeslot_callbacks := some scenarioCallbacks
    timeslot_sig := { signaled := false, result := SIGNAL_CODE_START }
    mpsl_session_id := 7
    request_earliest := { hfclk := 1, priority := Priority.NORMAL, length_us := 1000,
                          timeout_us := 2000000 }
    request_normal := { hfclk := 1, priority := Priority.HIGH, distance_us := 0,
                        length_us := 1000 }
    timer0_intenset_compare0 := true
    timer0_cc0 := 900
    timer0_irq_enabled := true }

/-- The inputs that lead from the initial state to `scenarioAnchored`. -/
def scenarioAnchoredInputs : List Input :=
  [Input.timeslot_open (some scenarioConfig) (some scenarioCallbacks) 0 7,
   Input.timeslot_start 1000 10000 0,
   Input.mpsl_cb MpslSignal.START,
   Input.thread_iteration 0]

/-- The anchored scenario state after `n` denials have been handled (the
request buffer holds the last retry) and one more has just been raised. -/
def scenarioDenied (n : Nat) : State :=
  { scenarioAnchored with
    blocked_cancelled_count := n
    timeslot_sig := { signaled := true, result := SIGNAL_CODE_BLOCKED_CANCELLED }
    request_normal :=
      if n = 0 then scenarioAnchored.request_normal
      else { hfclk := 1, priority := Priority.HIGH, distance_us := 10000 * (n + 1),
             length_us := 1000 } }

/-- The fields no pass of the worker loop writes. -/
def WorkerFrame (s r : State) : Prop :=
  r.p_timeslot_config = s.p_timeslot_config ∧
  r.p_timeslot_callbacks = s.p_timeslot_callbacks ∧
  r.request_earliest = s.request_earliest ∧
  r.request_normal.hfclk = s.request_normal.hfclk ∧
  r.request_normal.length_us = s.request_normal.length_us ∧
  r.session_open = s.session_open ∧
  r.ts_len_us = s.ts_len_us ∧
  r.conn_interval_us = s.conn_interval_us ∧
  r.mpsl_session_id = s.mpsl_session_id

/-- The event is a call of a member of the callback table (`start`, `end`,
`radio_irq`, `error`, `skipped`, `stopped`). -/
def Event.isCallback : Event → Bool
  | Event.cb_start => true
  | Event.cb_end => true
  | Event.cb_radio_irq => true
  | Event.cb_error _ => true
  | Event.cb_skipped _ => true
  | Event.cb_stopped => true
  | _ => false

/-- The distance of a Normal request made through `mpsl_timeslot_request`. -/
def Event.retryDistance : Event → Option Nat
  | Event.mpsl_timeslot_request _ (Request.NORMAL p) => some p.distance_us
  | _ => none

/-- A run of consecutive denials: for each entry the MPSL delivers blocked
(`true`) or cancelled (`false`) and the worker handles it, the MPSL answering
the retry request with the given code. -/
def denials : List (Bool × Int) → List Input
  | [] => []
  | (b, e) :: rest =>
    Input.mpsl_cb (if b then MpslSignal.BLOCKED else MpslSignal.CANCELLED) ::
      Input.thread_iteration e :: denials rest

/-- What a pass of the worker loop can do to `timeslot_started` and
`timeslot_stopping`: keep both, or clear both. -/
def FlagsKeptOrCleared (s r : State) : Prop :=
  (r.timeslot_started = s.timeslot_started ∧ r.timeslot_stopping = s.timeslot_stopping) ∨
  (r.timeslot_started = false ∧ r.timeslot_stopping = false)

/-- The anchored scenario with tolerance 255, the largest value an 8-bit
`skipped_tolerance` can hold. -/
def scenarioMaxTolerance : State :=
  { scenarioAnchored with
    p_timeslot_config := some { scenarioConfig with skipped_tolerance := 255 } }

/-- The distances `interval * (count + 1)` of `k` consecutive retries that
start from counter value `c`: the first retry is made with count `c + 1`. -/
def retryDistances (interval c : Nat) : Nat → List Nat
  | 0 => []
  | k + 1 => interval * (c + 2) :: retryDistances interval (c + 1) k

/-! ## Frame lemmas -/

theorem mpsl_cb_frame (c : Bool) (s : State) (sig : MpslSignal) (r : CbResult)
    (h : mpsl_cb c s sig = some r) :
    r.st.p_timeslot_config = s.p_timeslot_config ∧
    r.st.p_timeslot_callbacks = s.p_timeslot_callbacks ∧
    r.st.request_earliest = s.request_earliest ∧
    r.st.request_normal.hfclk = s.request_normal.hfclk ∧
    r.st.request_normal.length_us = s.request_normal.length_us ∧
    r.st.session_open = s.session_open ∧
    r.st.ts_len_us = s.ts_len_us ∧
    r.st.conn_interval_us = s.conn_interval_us ∧
    r.st.timeslot_started = s.timeslot_started ∧
    r.st.timeslot_stopping = s.timeslot_stopping ∧
    r.st.timeslot_anchored = s.timeslot_anchored ∧
    r.st.blocked_cancelled_count = s.blocked_cancelled_count ∧
    r.st.thread_returned = s.thread_returned ∧
    r.st.mpsl_session_id = s.mpsl_session_id := by
  unfold mpsl_cb at h
  cases sig <;> simp only [k_poll_signal_raise] at h <;> (try split at h) <;>
    (try split at h) <;> (try simp at h) <;> (try subst h) <;> simp

theorem call_cb_eq_some (s : State) (m : timeslot_cb → Bool) (e : Event) (tr : List Event) :
    call_cb s m e = some tr ↔
      ∃ cb, s.p_timeslot_callbacks = some cb ∧ m cb = true ∧ tr = [e] := by
  unfold call_cb
  cases h : s.p_timeslot_callbacks with
  | none => simp
  | some cb =>
    by_cases hm : m cb = true
    · simp only [hm, if_true, Option.some.injEq, exists_eq_left', true_and]
      exact ⟨fun h1 => h1.symm, fun h1 => h1.symm⟩
    · simp [hm]

theorem timeslot_stopped_frame (s : State) (r : State × List Event)
    (h : timeslot_stopped s = some r) : WorkerFrame s r.1 ∧ r.1.timeslot_sig = s.timeslot_sig := by
  unfold timeslot_stopped at h
  simp only [Option.map_eq_some'] at h
  obtain ⟨tr, -, rfl⟩ := h
  exact ⟨⟨rfl, rfl, rfl, rfl, rfl, rfl, rfl, rfl, rfl⟩, rfl⟩

theorem thread_retry_frame (s : State) (e : Int) (r : State × List Event)
    (h : thread_retry s e = some r) : WorkerFrame s r.1 ∧ r.1.timeslot_sig = s.timeslot_sig := by
  unfold thread_retry at h
  by_cases he : e = 0
  · simp only [he, ne_eq, not_true_eq_false, if_false, Option.map_eq_some'] at h
    obtain ⟨tr, -, rfl⟩ := h
    split_ifs <;> exact ⟨⟨rfl, rfl, rfl, rfl, rfl, rfl, rfl, rfl, rfl⟩, rfl⟩
  · simp only [he, ne_eq, not_false_eq_true, if_true, Option.bind_eq_some,
      Option.map_eq_some'] at h
    obtain ⟨tr1, -, tr2, -, rfl⟩ := h
    split_ifs <;> exact ⟨⟨rfl, rfl, rfl, rfl, rfl, rfl, rfl, rfl, rfl⟩, rfl⟩

theorem thread_blocked_cancelled_frame (s : State) (e : Int) (r : State × List Event)
    (h : thread_blocked_cancelled s e = some r) :
    WorkerFrame s r.1 ∧ r.1.timeslot_sig = s.timeslot_sig := by
  unfold thread_blocked_cancelled at h
  cases hcfg : s.p_timeslot_config with
  | none => simp only [hcfg] at h; exact absurd h (by simp)
  | some cfg =>
    simp only [hcfg] at h
    by_cases h1 : (s.blocked_cancelled_count + 1) % 256 > cfg.skipped_tolerance
    · simp only [h1, if_true, Option.map_eq_some'] at h
      obtain ⟨tr, -, rfl⟩ := h
      exact ⟨⟨hcfg.symm, rfl, rfl, rfl, rfl, rfl, rfl, rfl, rfl⟩, rfl⟩
    · simp only [h1, if_false] at h
      by_cases h2 : s.timeslot_stopping = true
      · simp only [h2, if_true] at h
        obtain ⟨⟨f1, f2, f3, f4, f5, f6, f7, f8, f9⟩, f10⟩ := timeslot_stopped_frame _ _ h
        exact ⟨⟨f1.trans hcfg.symm, f2, f3, f4, f5, f6, f7, f8, f9⟩, f10⟩
      · simp only [h2, if_false] at h
        obtain ⟨⟨f1, f2, f3, f4, f5, f6, f7, f8, f9⟩, f10⟩ := thread_retry_frame _ _ _ h
        exact ⟨⟨f1.trans hcfg.symm, f2, f3, f4, f5, f6, f7, f8, f9⟩, f10⟩

theorem thread_switch_frame (c : Bool) (s : State) (res : Nat) (e : Int)
    (r : State × List Event) (h : thread_switch c s res e = some r) :
    WorkerFrame s r.1 ∧ r.1.timeslot_sig = s.timeslot_sig := by
  unfold thread_switch at h
  split_ifs at h
  · simp only [Option.map_eq_some'] at h
    obtain ⟨tr, -, rfl⟩ := h
    exact ⟨⟨rfl, rfl, rfl, rfl, rfl, rfl, rfl, rfl, rfl⟩, rfl⟩
  · simp only [Option.map_eq_some'] at h
    obtain ⟨tr, -, rfl⟩ := h
    exact ⟨⟨rfl, rfl, rfl, rfl, rfl, rfl, rfl, rfl, rfl⟩, rfl⟩
  · simp only [Option.map_eq_some'] at h
    obtain ⟨tr, -, rfl⟩ := h
    exact ⟨⟨rfl, rfl, rfl, rfl, rfl, rfl, rfl, rfl, rfl⟩, rfl⟩
  · exact thread_blocked_cancelled_frame _ _ _ h
  · unfold thread_idle at h
    split_ifs at h
    · exact timeslot_stopped_frame _ _ h
    · simp only [Option.map_eq_some'] at h
      obtain ⟨tr, -, rfl⟩ := h
      exact ⟨⟨rfl, rfl, rfl, rfl, rfl, rfl, rfl, rfl, rfl⟩, rfl⟩
  · simp only [Option.map_eq_some'] at h
    obtain ⟨tr, -, rfl⟩ := h
    exact ⟨⟨rfl, rfl, rfl, rfl, rfl, rfl, rfl, rfl, rfl⟩, rfl⟩
  · simp only [Option.map_eq_some'] at h
    obtain ⟨tr, -, rfl⟩ := h
    exact ⟨⟨rfl, rfl, rfl, rfl, rfl, rfl, rfl, rfl, rfl⟩, rfl⟩

theorem thread_iteration_frame (c : Bool) (s : State) (e : Int)
    (r : State × List Event) (h : thread_iteration c s e = some r) :
    WorkerFrame s r.1 := by
  unfold thread_iteration at h
  split_ifs at h
  · simp only [Option.some.injEq] at h
    subst h
    exact ⟨rfl, rfl, rfl, rfl, rfl, rfl, rfl, rfl, rfl⟩
  · simp only [Option.map_eq_some'] at h
    obtain ⟨r0, h0, rfl⟩ := h
    have hf := (thread_switch_frame _ _ _ _ _ h0).1
    split_ifs
    · exact hf
    · exact hf

/-! ## The buffer invariant holds in every reachable state -/

theorem BuffersInv_init : BuffersInv State.init := by
  refine ⟨rfl, ?_, ?_, rfl, rfl⟩
  · intro h; exact absurd h (by decide)
  · intro cfg h; exact absurd h (by simp [State.init])

theorem timeslot_open_BuffersInv (c : Bool) (s : State) (p_config : Option timeslot_config)
    (p_cb : Option timeslot_cb) (e : Int) (id : Nat) (hinv : BuffersInv s) :
    BuffersInv (timeslot_open c s p_config p_cb e id).st := by
  unfold timeslot_open
  by_cases ho : s.session_open = true
  · rw [if_pos ho]; exact hinv
  · rw [if_neg ho]
    cases p_config with
    | none => exact hinv
    | some cfg =>
      cases p_cb with
      | none => exact hinv
      | some cb =>
        dsimp only
        by_cases h1 : (!cb.error || !cb.start || !cb.end_) = true
        · rw [if_pos h1]; exact hinv
        · rw [if_neg h1]
          by_cases h2 : (!c && !cb.radio_irq) = true
          · rw [if_pos h2]; exact hinv
          · rw [if_neg h2]
            by_cases h3 : e ≠ 0
            · rw [if_pos h3]
              refine ⟨hinv.1, fun _ => by simp, ?_, hinv.2.2.2.1, hinv.2.2.2.2⟩
              intro cfg1 hc
              simp only [Option.some.injEq] at hc
              subst hc
              exact ⟨rfl, rfl, rfl⟩
            · rw [if_neg h3]
              refine ⟨hinv.1, fun _ => by simp, ?_, hinv.2.2.2.1, hinv.2.2.2.2⟩
              intro cfg1 hc
              simp only [Option.some.injEq] at hc
              subst hc
              exact ⟨rfl, rfl, rfl⟩

theorem timeslot_start_BuffersInv (s : State) (len_us interval_us : Nat) (e : Int)
    (hinv : BuffersInv s) : BuffersInv (timeslot_start s len_us interval_us e).st := by
  unfold timeslot_start
  split_ifs
  · exact hinv
  · exact ⟨hinv.1, hinv.2.1, hinv.2.2.1, rfl, rfl⟩

theorem timeslot_stop_BuffersInv (s : State) (hinv : BuffersInv s) :
    BuffersInv (timeslot_stop s).st := by
  unfold timeslot_stop
  split_ifs
  · exact hinv
  · exact hinv

theorem BuffersInv_of_frame (s r : State) (hinv : BuffersInv s)
    (h1 : r.p_timeslot_config = s.p_timeslot_config)
    (h2 : r.request_earliest = s.request_earliest)
    (h3 : r.request_normal.hfclk = s.request_normal.hfclk)
    (h4 : r.session_open = s.session_open)
    (h5 : r.request_normal.length_us = s.request_normal.length_us)
    (h6 : r.ts_len_us = s.ts_len_us) : BuffersInv r := by
  unfold BuffersInv
  rw [h1, h2, h3, h4, h5, h6]
  exact hinv

theorem step_BuffersInv (c : Bool) (s : State) (i : Input) (r : State × List Event)
    (h : step c s i = some r) (hinv : BuffersInv s) : BuffersInv r.1 := by
  cases i with
  | timeslot_open p_config p_cb e id =>
    simp only [step, Option.some.injEq] at h
    subst h
    exact timeslot_open_BuffersInv c s p_config p_cb e id hinv
  | timeslot_start len_us interval_us e =>
    simp only [step, Option.some.injEq] at h
    subst h
    exact timeslot_start_BuffersInv s len_us interval_us e hinv
  | timeslot_stop =>
    simp only [step, Option.some.injEq] at h
    subst h
    exact timeslot_stop_BuffersInv s hinv
  | mpsl_cb sig =>
    simp only [step, Option.map_eq_some'] at h
    obtain ⟨r0, h0, rfl⟩ := h
    have hf := mpsl_cb_frame c s sig r0 h0
    exact BuffersInv_of_frame s r0.st hinv hf.1 hf.2.2.1 hf.2.2.2.1 hf.2.2.2.2.2.1
      hf.2.2.2.2.1 hf.2.2.2.2.2.2.1
  | thread_iteration e =>
    simp only [step] at h
    obtain ⟨f1, -, f3, f4, f5, f6, f7, -⟩ := thread_iteration_frame c s e r h
    exact BuffersInv_of_frame s r.1 hinv f1 f3 f4 f6 f5 f7

theorem run_BuffersInv (c : Bool) (inputs : List Input) :
    ∀ (s : State) (r : State × List Event),
      run c s inputs = some r → BuffersInv s → BuffersInv r.1 := by
  induction inputs with
  | nil =>
    intro s r h hinv
    simp only [run, Option.some.injEq] at h
    subst h
    exact hinv
  | cons i rest ih =>
    intro s r h hinv
    simp only [run] at h
    cases h1 : step c s i with
    | none => simp [h1] at h
    | some r1 =>
      obtain ⟨s1, tr1⟩ := r1
      simp only [h1] at h
      cases h2 : run c s1 rest with
      | none => simp [h2] at h
      | some r2 =>
        obtain ⟨s2, tr2⟩ := r2
        simp only [h2, Option.some.injEq] at h
        subst h
        exact ih s1 (s2, tr2) h2 (step_BuffersInv c s i (s1, tr1) h1 hinv)

/-! ## After the worker has returned -/

theorem mpsl_cb_total (c : Bool) (s : State) (sig : MpslSignal)
    (hcfg : s.p_timeslot_config ≠ none) :
    ∃ r, mpsl_cb c s sig = some r ∧ ∀ ev ∈ r.trace, ev = Event.RADIO_IRQHandler := by
  cases hc : s.p_timeslot_config with
  | none => exact absurd hc hcfg
  | some cfg =>
    cases sig <;> simp only [mpsl_cb, hc, k_poll_signal_raise]
    case START => split_ifs <;> exact ⟨_, rfl, by simp⟩
    case TIMER0 => split_ifs <;> exact ⟨_, rfl, by simp⟩
    case RADIO => split_ifs <;> exact ⟨_, rfl, by simp⟩
    all_goals exact ⟨_, rfl, by simp⟩

theorem thread_iteration_returned (c : Bool) (s : State) (e : Int)
    (h : s.thread_returned = true) : thread_iteration c s e = some (s, []) := by
  unfold thread_iteration
  simp [h]

theorem run_after_return (c : Bool) (later : List Input) :
    ∀ (s : State), s.thread_returned = true → s.p_timeslot_config ≠ none →
      (∀ i ∈ later, i.isSignalOrWorker = true) →
      ∃ s1 tr, run c s later = some (s1, tr) ∧ s1.thread_returned = true ∧
        ∀ ev ∈ tr, ev = Event.RADIO_IRQHandler := by
  induction later with
  | nil =>
    intro s hret _ _
    exact ⟨s, [], rfl, hret, by simp⟩
  | cons i rest ih =>
    intro s hret hcfg hin
    have hi := hin i (List.mem_cons_self _ _)
    have hrest : ∀ j ∈ rest, j.isSignalOrWorker = true :=
      fun j hj => hin j (List.mem_cons_of_mem _ hj)
    cases i with
    | timeslot_open _ _ _ _ => exact absurd hi (by simp [Input.isSignalOrWorker])
    | timeslot_start _ _ _ => exact absurd hi (by simp [Input.isSignalOrWorker])
    | timeslot_stop => exact absurd hi (by simp [Input.isSignalOrWorker])
    | mpsl_cb sig =>
      obtain ⟨r, hr, htr⟩ := mpsl_cb_total c s sig hcfg
      have hf := mpsl_cb_frame c s sig r hr
      have hret1 : r.st.thread_returned = true := by
        rw [hf.2.2.2.2.2.2.2.2.2.2.2.2.1]; exact hret
      have hcfg1 : r.st.p_timeslot_config ≠ none := by rw [hf.1]; exact hcfg
      obtain ⟨s1, tr, h1, h2, h3⟩ := ih r.st hret1 hcfg1 hrest
      refine ⟨s1, r.trace ++ tr, ?_, h2, ?_⟩
      · simp only [run, step, hr, Option.map_some', h1]
      · intro ev hev
        rcases List.mem_append.mp hev with h | h
        · exact htr ev h
        · exact h3 ev h
    | thread_iteration e =>
      obtain ⟨s1, tr, h1, h2, h3⟩ := ih s hret hcfg hrest
      refine ⟨s1, tr, ?_, h2, h3⟩
      simp only [run, step, thread_iteration_returned c s e hret, h1, List.nil_append]

/-! ## The worked scenario state is reachable -/

theorem scenarioAnchored_reached :
    run false State.init scenarioAnchoredInputs =
      some (scenarioAnchored,
        [Event.mpsl_timeslot_session_open,
         Event.mpsl_timeslot_request 7
           (Request.EARLIEST { hfclk := 1, priority := Priority.NORMAL, length_us := 1000,
                               timeout_us := 2000000 }),
         Event.cb_start]) := by
  rfl

/-! ## Claims -/

/-- C1: when the session is not open, or a timeslot is already started, or a
stop is pending, `timeslot_start` returns `-TIMESLOT_ERROR_TIMESLOT_ALREADY_STARTED`,
makes no request to the MPSL (no outside call at all) and leaves the whole
state, request buffers included, as it was. -/
theorem timeslot_start_rejected (s : State) (len_us interval_us : Nat) (mpsl_ret : Int)
    (h : s.session_open = false ∨ s.timeslot_started = true ∨ s.timeslot_stopping = true) :
    timeslot_start s len_us interval_us mpsl_ret =
      { st := s, ret := Status.neg TIMESLOT_ERROR.TIMESLOT_ALREADY_STARTED, trace := [] } := by
  unfold timeslot_start
  rcases h with h | h | h <;> simp [h]

theorem timeslot_start_rejected_witness :
    timeslot_start { State.init with session_open := true, timeslot_started := true } 1000 10000 0 =
      { st := { State.init with session_open := true, timeslot_started := true },
        ret := Status.neg TIMESLOT_ERROR.TIMESLOT_ALREADY_STARTED, trace := [] } :=
  timeslot_start_rejected _ 1000 10000 0 (Or.inr (Or.inl rfl))

/-- C2: in every state reached from the initial one in which the session is
open, nothing is started and no stop is pending, `timeslot_start len_us
interval_us` zeroes `blocked_cancelled_count`, sets `timeslot_started`, stores
the length and the interval, makes exactly one outside call, the Earliest
request with length `len_us`, normal priority and the clock source and timeout
of the configuration stored by `timeslot_open`, and returns the very code the
MPSL returned for that request. -/
theorem timeslot_start_accepted (c : Bool) (inputs : List Input) (s : State)
    (tr0 : List Event) (hrun : run c State.init inputs = some (s, tr0))
    (ho : s.session_open = true) (hs : s.timeslot_started = false)
    (hst : s.timeslot_stopping = false)
    (len_us interval_us : Nat) (mpsl_ret : Int) :
    ∃ cfg, s.p_timeslot_config = some cfg ∧
      (timeslot_start s len_us interval_us mpsl_ret).st.blocked_cancelled_count = 0 ∧
      (timeslot_start s len_us interval_us mpsl_ret).st.timeslot_started = true ∧
      (timeslot_start s len_us interval_us mpsl_ret).st.ts_len_us = len_us ∧
      (timeslot_start s len_us interval_us mpsl_ret).st.conn_interval_us = interval_us ∧
      (timeslot_start s len_us interval_us mpsl_ret).trace =
        [Event.mpsl_timeslot_request s.mpsl_session_id
          (Request.EARLIEST { hfclk := cfg.hfclk, priority := Priority.NORMAL,
                              length_us := len_us, timeout_us := cfg.timeout_us })] ∧
      (timeslot_start s len_us interval_us mpsl_ret).ret = Status.code mpsl_ret := by
  have hinv := run_BuffersInv c inputs State.init (s, tr0) hrun BuffersInv_init
  obtain ⟨hp, hcfg, hbuf, -, -⟩ := hinv
  cases hc : s.p_timeslot_config with
  | none => exact absurd hc (hcfg ho)
  | some cfg =>
    obtain ⟨b1, b2, -⟩ := hbuf cfg hc
    refine ⟨cfg, rfl, ?_⟩
    simp only [timeslot_start, ho, hs, hst, Bool.not_true, Bool.or_self, Bool.false_eq_true,
      if_false]
    rw [← b1, ← b2, ← hp]
    exact ⟨trivial, trivial, trivial, trivial, rfl, trivial⟩

theorem timeslot_start_accepted_witness :
    ∃ cfg, (some { hfclk := 1, timeout_us := 2000000, safety_margin_us := 100,
                   skipped_tolerance := 3 } : Option timeslot_config) = some cfg ∧
      (timeslot_start (timeslot_open false State.init
          (some { hfclk := 1, timeout_us := 2000000, safety_margin_us := 100,
                  skipped_tolerance := 3 })
          (some { start := true, end_ := true, error := true, skipped := true,
                  stopped := true, radio_irq := true }) 0 7).st 1000 10000 0).trace =
        [Event.mpsl_timeslot_request 7
          (Request.EARLIEST { hfclk := cfg.hfclk, priority := Priority.NORMAL,
                              length_us := 1000, timeout_us := cfg.timeout_us })] := by
  obtain ⟨cfg, h1, -, -, -, -, h2, -⟩ :=
    timeslot_start_accepted false
      [Input.timeslot_open
        (some { hfclk := 1, timeout_us := 2000000, safety_margin_us := 100,
                skipped_tolerance := 3 })
        (some { start := true, end_ := true, error := true, skipped := true,
                stopped := true, radio_irq := true }) 0 7]
      _ _ rfl rfl rfl rfl 1000 10000 0
  exact ⟨cfg, h1, h2⟩

/-- C3: `timeslot_stop` returns `-TIMESLOT_ERROR_NO_TIMESLOT_STARTED` and
leaves the state as it was when the session is not open or nothing is started;
otherwise it returns 0 and the only change to the state is that
`timeslot_stopping` is set.  Either way it makes no outside call (no request,
no callback). -/
theorem timeslot_stop_spec (s : State) :
    ((s.session_open = false ∨ s.timeslot_started = false) →
      timeslot_stop s =
        { st := s, ret := Status.neg TIMESLOT_ERROR.NO_TIMESLOT_STARTED, trace := [] }) ∧
    (¬ (s.session_open = false ∨ s.timeslot_started = false) →
      timeslot_stop s =
        { st := { s with timeslot_stopping := true }, ret := Status.code 0, trace := [] }) := by
  unfold timeslot_stop
  constructor
  · intro h
    rcases h with h | h <;> simp [h]
  · intro h
    simp only [not_or, Bool.not_eq_false] at h
    simp [h.1, h.2]

theorem timeslot_stop_spec_witness :
    timeslot_stop State.init =
        { st := State.init, ret := Status.neg TIMESLOT_ERROR.NO_TIMESLOT_STARTED, trace := [] } ∧
    timeslot_stop scenarioAnchored =
        { st := { scenarioAnchored with timeslot_stopping := true }, ret := Status.code 0,
          trace := [] } :=
  ⟨(timeslot_stop_spec State.init).1 (Or.inl rfl),
   (timeslot_stop_spec scenarioAnchored).2 (by decide)⟩

/-- C4: at a callback table whose `skipped` member is null (every other member
and the configuration present, session not yet open), `timeslot_open` does not
return `-TIMESLOT_ERROR_INVALID_PARAM`: it calls `mpsl_timeslot_session_open`
and, the MPSL accepting, returns 0 with `session_open` set.  A later denial
within tolerance then makes the worker call through the null `skipped`
member, which has no defined result. -/
theorem timeslot_open_accepts_null_skipped :
    timeslot_open false State.init (some scenarioConfig)
        (some { scenarioCallbacks with skipped := false }) 0 7 =
      { st := { State.init with
                  session_open := true
                  p_timeslot_config := some scenarioConfig
                  p_timeslot_callbacks := some { scenarioCallbacks with skipped := false }
                  mpsl_session_id := 7
                  request_earliest := { hfclk := 1, priority := Priority.NORMAL, length_us := 0,
                                        timeout_us := 2000000 }
                  request_normal := { hfclk := 1, priority := Priority.HIGH, distance_us := 0,
                                      length_us := 0 } },
        ret := Status.code 0,
        trace := [Event.mpsl_timeslot_session_open] } ∧
    run false State.init
        [Input.timeslot_open (some scenarioConfig)
           (some { scenarioCallbacks with skipped := false }) 0 7,
         Input.timeslot_start 1000 10000 0,
         Input.mpsl_cb MpslSignal.BLOCKED,
         Input.thread_iteration 0] = none := by
  constructor <;> rfl

/-- C5: when the worker handles a raised `SIGNAL_CODE_BLOCKED_CANCELLED` and
the incremented 8-bit counter is above `skipped_tolerance`, the pass makes
exactly one outside call, the `error` callback with `-TIMESLOT_ERROR_CANCELLED`
if anchored and `-TIMESLOT_ERROR_ANCHOR_FAILED` otherwise (so no `skipped`, no
`stopped`, no request), only the counter changes, and the thread function
returns: for every later sequence of signal deliveries and worker passes, the
run is defined and its outside calls contain no `mpsl_timeslot_request` and no
callback (at most `RADIO_IRQHandler` calls made by `mpsl_cb` itself). -/
theorem thread_tolerance_exceeded (c : Bool) (s : State) (cfg : timeslot_config)
    (cb : timeslot_cb) (mpsl_ret : Int)
    (halive : s.thread_returned = false)
    (hsig : s.timeslot_sig = { signaled := true, result := SIGNAL_CODE_BLOCKED_CANCELLED })
    (hcfg : s.p_timeslot_config = some cfg)
    (hcb : s.p_timeslot_callbacks = some cb) (herr : cb.error = true)
    (hgt : (s.blocked_cancelled_count + 1) % 256 > cfg.skipped_tolerance) :
    thread_iteration c s mpsl_ret =
      some ({ s with
              blocked_cancelled_count := (s.blocked_cancelled_count + 1) % 256
              thread_returned := true },
            [Event.cb_error
              (if s.timeslot_anchored = true then Status.neg TIMESLOT_ERROR.CANCELLED
               else Status.neg TIMESLOT_ERROR.ANCHOR_FAILED)]) ∧
    ∀ later : List Input, (∀ i ∈ later, i.isSignalOrWorker = true) →
      ∃ s1 tr,
        run c { s with
                blocked_cancelled_count := (s.blocked_cancelled_count + 1) % 256
                thread_returned := true } later = some (s1, tr) ∧
        s1.thread_returned = true ∧ ∀ ev ∈ tr, ev = Event.RADIO_IRQHandler := by
  constructor
  · have hc : call_cb { s with blocked_cancelled_count := (s.blocked_cancelled_count + 1) % 256 }
        timeslot_cb.error
        (Event.cb_error
          (if s.timeslot_anchored = true then Status.neg TIMESLOT_ERROR.CANCELLED
           else Status.neg TIMESLOT_ERROR.ANCHOR_FAILED)) =
        some [Event.cb_error
          (if s.timeslot_anchored = true then Status.neg TIMESLOT_ERROR.CANCELLED
           else Status.neg TIMESLOT_ERROR.ANCHOR_FAILED)] :=
      (call_cb_eq_some _ _ _ _).2 ⟨cb, hcb, herr, rfl⟩
    have hsw : thread_switch c s SIGNAL_CODE_BLOCKED_CANCELLED mpsl_ret =
        some ({ s with
                blocked_cancelled_count := (s.blocked_cancelled_count + 1) % 256
                thread_returned := true },
              [Event.cb_error
                (if s.timeslot_anchored = true then Status.neg TIMESLOT_ERROR.CANCELLED
                 else Status.neg TIMESLOT_ERROR.ANCHOR_FAILED)]) := by
      have h0 : thread_switch c s SIGNAL_CODE_BLOCKED_CANCELLED mpsl_ret =
          thread_blocked_cancelled s mpsl_ret := by
        simp [thread_switch, SIGNAL_CODE_BLOCKED_CANCELLED, SIGNAL_CODE_START,
          SIGNAL_CODE_TIMER0, SIGNAL_CODE_RADIO]
      rw [h0]
      unfold thread_blocked_cancelled
      simp only [hcfg, hgt, if_true]
      split_ifs <;> simp_all
    unfold thread_iteration
    simp only [halive, hsig, Bool.not_true, Bool.or_self, Bool.false_eq_true, if_false, hsw,
      Option.map_some', if_true]
  · intro later hl
    exact run_after_return c later _ rfl (by simp [hcfg]) hl

theorem thread_tolerance_exceeded_witness :
    run false scenarioAnchored
        [Input.mpsl_cb MpslSignal.CANCELLED, Input.thread_iteration 0,
         Input.mpsl_cb MpslSignal.CANCELLED, Input.thread_iteration 0,
         Input.mpsl_cb MpslSignal.CANCELLED, Input.thread_iteration 0,
         Input.mpsl_cb MpslSignal.CANCELLED] =
      some (scenarioDenied 3,
        [Event.mpsl_timeslot_request 7
           (Request.NORMAL { hfclk := 1, priority := Priority.HIGH, distance_us := 20000,
                             length_us := 1000 }),
         Event.cb_skipped 1,
         Event.mpsl_timeslot_request 7
           (Request.NORMAL { hfclk := 1, priority := Priority.HIGH, distance_us := 30000,
                             length_us := 1000 }),
         Event.cb_skipped 2,
         Event.mpsl_timeslot_request 7
           (Request.NORMAL { hfclk := 1, priority := Priority.HIGH, distance_us := 40000,
                             length_us := 1000 }),
         Event.cb_skipped 3]) ∧
    thread_iteration false (scenarioDenied 3) 0 =
      some ({ scenarioDenied 3 with blocked_cancelled_count := 4, thread_returned := true },
            [Event.cb_error (Status.neg TIMESLOT_ERROR.CANCELLED)]) :=
  ⟨rfl,
   (thread_tolerance_exceeded false (scenarioDenied 3) scenarioConfig scenarioCallbacks 0
      rfl rfl rfl rfl rfl (by decide)).1⟩

/-- C6, as stated, fails: with interval 2147483648 us, anchored, count 0 and
tolerance 3, the retry for the first denial is a Normal request whose
distance is 0, not interval * 2 = 4294967296 (the product is formed in 32-bit
unsigned arithmetic). -/
theorem retry_distance_wraps :
    run false State.init
        [Input.timeslot_open (some scenarioConfig) (some scenarioCallbacks) 0 7,
         Input.timeslot_start 1000 2147483648 0,
         Input.mpsl_cb MpslSignal.START,
         Input.thread_iteration 0,
         Input.mpsl_cb MpslSignal.BLOCKED,
         Input.thread_iteration 0] =
      some ({ scenarioAnchored with
                conn_interval_us := 2147483648
                blocked_cancelled_count := 1
                timeslot_sig := { signaled := false, result := SIGNAL_CODE_BLOCKED_CANCELLED }
                request_normal := { hfclk := 1, priority := Priority.HIGH, distance_us := 0,
                                    length_us := 1000 } },
        [Event.mpsl_timeslot_session_open,
         Event.mpsl_timeslot_request 7
           (Request.EARLIEST { hfclk := 1, priority := Priority.NORMAL, length_us := 1000,
                               timeout_us := 2000000 }),
         Event.cb_start,
         Event.mpsl_timeslot_request 7
           (Request.NORMAL { hfclk := 1, priority := Priority.HIGH, distance_us := 0,
                             length_us := 1000 }),
         Event.cb_skipped 1]) ∧
    (0 : Nat) ≠ 2147483648 * (0 + 2) := by
  constructor
  · rfl
  · decide

/-- C6, amended: in a reachable, non-stopping state with count `n`,
`n + 1 ≤ skipped_tolerance` and `n + 1 < 256`, the worker's handling of a
raised `SIGNAL_CODE_BLOCKED_CANCELLED` makes exactly one request, then (only
if the MPSL returned a non-zero code) the `error` callback with that code,
then `skipped(n + 1)`.  If anchored the request is Normal with the stored slot
length, priority High and distance `interval * (n + 2)` reduced modulo 2^32;
if not anchored it is the Earliest request of `timeslot_start` (stored length,
normal priority, clock source and timeout of the stored configuration). -/
theorem thread_retry_within_tolerance (c : Bool) (inputs : List Input) (s : State)
    (tr0 : List Event) (hrun : run c State.init inputs = some (s, tr0))
    (cfg : timeslot_config) (cb : timeslot_cb) (mpsl_ret : Int)
    (halive : s.thread_returned = false)
    (hsig : s.timeslot_sig = { signaled := true, result := SIGNAL_CODE_BLOCKED_CANCELLED })
    (hcfg : s.p_timeslot_config = some cfg)
    (hcb : s.p_timeslot_callbacks = some cb)
    (herr : cb.error = true) (hsk : cb.skipped = true)
    (hstop : s.timeslot_stopping = false)
    (htol : s.blocked_cancelled_count + 1 ≤ cfg.skipped_tolerance)
    (hwrap : s.blocked_cancelled_count + 1 < 256) :
    ∃ s1, thread_iteration c s mpsl_ret =
        some (s1,
          [Event.mpsl_timeslot_request s.mpsl_session_id
            (if s.timeslot_anchored = true then
               Request.NORMAL
                 { hfclk := cfg.hfclk, priority := Priority.HIGH,
                   distance_us :=
                     (s.conn_interval_us * (s.blocked_cancelled_count + 2)) % 4294967296,
                   length_us := s.ts_len_us }
             else
               Request.EARLIEST
                 { hfclk := cfg.hfclk, priority := Priority.NORMAL,
                   length_us := s.ts_len_us, timeout_us := cfg.timeout_us })]
          ++ (if mpsl_ret = 0 then [] else [Event.cb_error (Status.code mpsl_ret)])
          ++ [Event.cb_skipped (s.blocked_cancelled_count + 1)]) ∧
      s1.blocked_cancelled_count = s.blocked_cancelled_count + 1 := by
  obtain ⟨hp, -, hbuf, hlen1, hlen2⟩ :=
    run_BuffersInv c inputs State.init (s, tr0) hrun BuffersInv_init
  obtain ⟨b1, b2, b3⟩ := hbuf cfg hcfg
  simp only at hp hlen1 hlen2 b1 b2 b3
  have hre : s.request_earliest =
      { hfclk := cfg.hfclk, priority := Priority.NORMAL, length_us := s.ts_len_us,
        timeout_us := cfg.timeout_us } := by
    rw [← b1, ← b2, ← hp, ← hlen2]
  have hmod : (s.blocked_cancelled_count + 1) % 256 = s.blocked_cancelled_count + 1 :=
    Nat.mod_eq_of_lt hwrap
  have hngt : ¬ (s.blocked_cancelled_count + 1 > cfg.skipped_tolerance) := by omega
  have h0 : thread_switch c s SIGNAL_CODE_BLOCKED_CANCELLED mpsl_ret =
      thread_blocked_cancelled s mpsl_ret := by
    simp [thread_switch, SIGNAL_CODE_BLOCKED_CANCELLED, SIGNAL_CODE_START,
      SIGNAL_CODE_TIMER0, SIGNAL_CODE_RADIO]
  have h1 : thread_blocked_cancelled s mpsl_ret =
      thread_retry { s with blocked_cancelled_count := s.blocked_cancelled_count + 1 }
        mpsl_ret := by
    unfold thread_blocked_cancelled
    simp only [hcfg, hmod, hngt, hstop, if_false, Bool.false_eq_true]
  have hcall : ∀ (s2 : State) (m : timeslot_cb → Bool) (e : Event),
      s2.p_timeslot_callbacks = some cb → m cb = true → call_cb s2 m e = some [e] :=
    fun s2 m e h2 h3 => (call_cb_eq_some s2 m e [e]).2 ⟨cb, h2, h3, rfl⟩
  unfold thread_iteration
  simp only [halive, hsig, Bool.not_true, Bool.or_self, Bool.false_eq_true, if_false, h0, h1]
  unfold thread_retry
  by_cases ha : s.timeslot_anchored = true <;> by_cases he : mpsl_ret = 0
  all_goals
    simp only [ha, he, if_true, if_false, ne_eq, not_true_eq_false, not_false_eq_true,
      Bool.false_eq_true]
  all_goals
    simp only [hcall, hcb, hsk, herr, Option.map_some', Option.some_bind, Option.bind_some,
      Bool.false_eq_true, if_false, b3, hlen1, hre]
  all_goals refine ⟨_, rfl, ?_⟩
  all_goals rfl

theorem thread_retry_within_tolerance_witness :
    (∃ s1, thread_iteration false (scenarioDenied 0) 0 =
        some (s1,
          [Event.mpsl_timeslot_request 7
             (Request.NORMAL { hfclk := 1, priority := Priority.HIGH, distance_us := 20000,
                               length_us := 1000 }),
           Event.cb_skipped 1]) ∧
      s1.blocked_cancelled_count = 1) ∧
    (∃ s1, thread_iteration false (scenarioDenied 1) 0 =
        some (s1,
          [Event.mpsl_timeslot_request 7
             (Request.NORMAL { hfclk := 1, priority := Priority.HIGH, distance_us := 30000,
                               length_us := 1000 }),
           Event.cb_skipped 2]) ∧
      s1.blocked_cancelled_count = 2) :=
  ⟨thread_retry_within_tolerance false
      (scenarioAnchoredInputs ++ [Input.mpsl_cb MpslSignal.BLOCKED])
      (scenarioDenied 0) _ rfl scenarioConfig scenarioCallbacks 0
      rfl rfl rfl rfl rfl rfl rfl (by decide) (by decide),
   thread_retry_within_tolerance false
      (scenarioAnchoredInputs ++
        [Input.mpsl_cb MpslSignal.BLOCKED, Input.thread_iteration 0,
         Input.mpsl_cb MpslSignal.BLOCKED])
      (scenarioDenied 1) _ rfl scenarioConfig scenarioCallbacks 0
      rfl rfl rfl rfl rfl rfl rfl (by decide) (by decide)⟩

/-- C7: the action `mpsl_cb` returns is `END` when a stop is pending and the
signal is slot-start, TIMER0 or radio; it is the request action pointing at
`request_normal` when the signal is TIMER0 and no stop is pending; it is
`NONE` for every other combination, a pending stop included.  (The stored
configuration is there whenever the MPSL can call `mpsl_cb`: `timeslot_open`
stores it before it registers the callback.) -/
theorem mpsl_cb_action (c : Bool) (s : State) (sig : MpslSignal)
    (hcfg : s.p_timeslot_config ≠ none) :
    ∃ r, mpsl_cb c s sig = some r ∧
      r.action =
        if s.timeslot_stopping = true ∧
            (sig = MpslSignal.START ∨ sig = MpslSignal.TIMER0 ∨ sig = MpslSignal.RADIO) then
          Action.END
        else if sig = MpslSignal.TIMER0 then
          Action.REQUEST (Request.NORMAL r.st.request_normal)
        else Action.NONE := by
  cases hc : s.p_timeslot_config with
  | none => exact absurd hc hcfg
  | some cfg =>
    by_cases hst : s.timeslot_stopping = true
    · cases sig <;> simp [mpsl_cb, hc, hst, k_poll_signal_raise]
    · cases sig <;> simp [mpsl_cb, hc, hst, k_poll_signal_raise]
      cases c <;> simp

theorem mpsl_cb_action_witness :
    ∃ r, mpsl_cb false { scenarioAnchored with timeslot_stopping := true }
        MpslSignal.BLOCKED = some r ∧ r.action = Action.NONE :=
  mpsl_cb_action false { scenarioAnchored with timeslot_stopping := true }
    MpslSignal.BLOCKED (by decide)

/-! ## Slot length and interval between two starts -/

theorem step_keeps_timing (c : Bool) (s : State) (i : Input) (r : State × List Event)
    (hi : i.isStart = false) (h : step c s i = some r) :
    r.1.ts_len_us = s.ts_len_us ∧ r.1.conn_interval_us = s.conn_interval_us ∧
      r.1.request_normal.length_us = s.request_normal.length_us := by
  cases i with
  | timeslot_open p_config p_cb e id =>
    simp only [step, Option.some.injEq] at h
    subst h
    unfold timeslot_open
    by_cases ho : s.session_open = true
    · rw [if_pos ho]; exact ⟨rfl, rfl, rfl⟩
    · rw [if_neg ho]
      cases p_config with
      | none => exact ⟨rfl, rfl, rfl⟩
      | some cfg =>
        cases p_cb with
        | none => exact ⟨rfl, rfl, rfl⟩
        | some cb =>
          dsimp only
          split_ifs <;> exact ⟨rfl, rfl, rfl⟩
  | timeslot_start len_us interval_us e => exact absurd hi (by simp [Input.isStart])
  | timeslot_stop =>
    simp only [step, Option.some.injEq] at h
    subst h
    unfold timeslot_stop
    split_ifs <;> exact ⟨rfl, rfl, rfl⟩
  | mpsl_cb sig =>
    simp only [step, Option.map_eq_some'] at h
    obtain ⟨r0, h0, rfl⟩ := h
    have hf := mpsl_cb_frame c s sig r0 h0
    exact ⟨hf.2.2.2.2.2.2.1, hf.2.2.2.2.2.2.2.1, hf.2.2.2.2.1⟩
  | thread_iteration e =>
    simp only [step] at h
    obtain ⟨-, -, -, -, f5, -, f7, f8, -⟩ := thread_iteration_frame c s e r h
    exact ⟨f7, f8, f5⟩

theorem run_keeps_timing (c : Bool) (inputs : List Input) :
    ∀ (s : State) (r : State × List Event),
      (∀ i ∈ inputs, i.isStart = false) → run c s inputs = some r →
      r.1.ts_len_us = s.ts_len_us ∧ r.1.conn_interval_us = s.conn_interval_us ∧
        r.1.request_normal.length_us = s.request_normal.length_us := by
  induction inputs with
  | nil =>
    intro s r _ h
    simp only [run, Option.some.injEq] at h
    subst h
    exact ⟨rfl, rfl, rfl⟩
  | cons i rest ih =>
    intro s r hin h
    simp only [run] at h
    cases h1 : step c s i with
    | none => simp [h1] at h
    | some r1 =>
      obtain ⟨s1, tr1⟩ := r1
      simp only [h1] at h
      cases h2 : run c s1 rest with
      | none => simp [h2] at h
      | some r2 =>
        obtain ⟨s2, tr2⟩ := r2
        simp only [h2, Option.some.injEq] at h
        subst h
        obtain ⟨a1, a2, a3⟩ :=
          step_keeps_timing c s i (s1, tr1) (hin i (List.mem_cons_self _ _)) h1
        obtain ⟨b1, b2, b3⟩ :=
          ih s1 (s2, tr2) (fun j hj => hin j (List.mem_cons_of_mem _ hj)) h2
        exact ⟨b1.trans a1, b2.trans a2, b3.trans a3⟩

/-- C8: take any state in which `timeslot_start len_us interval_us` passes its
guard (whatever the MPSL returns for the request, success included), let any
inputs other than a further `timeslot_start` follow (signals, worker passes
with their back-off retries, `timeslot_stop`, `timeslot_open`), and let no
stop be pending in the state reached.  Then `mpsl_cb` on TIMER0 raises
`SIGNAL_CODE_TIMER0` and returns the request action for a Normal request with
length `len_us`, distance exactly `interval_us` and priority Normal. -/
theorem deadline_requests_fixed_interval (c : Bool) (s0 : State)
    (len_us interval_us : Nat) (mpsl_ret : Int)
    (ho : s0.session_open = true) (hs : s0.timeslot_started = false)
    (hst : s0.timeslot_stopping = false)
    (later : List Input) (hl : ∀ i ∈ later, i.isStart = false)
    (s : State) (tr : List Event)
    (hrun : run c (timeslot_start s0 len_us interval_us mpsl_ret).st later = some (s, tr))
    (hstop : s.timeslot_stopping = false) :
    ∃ r, mpsl_cb c s MpslSignal.TIMER0 = some r ∧
      r.st.timeslot_sig = { signaled := true, result := SIGNAL_CODE_TIMER0 } ∧
      r.action = Action.REQUEST (Request.NORMAL
        { hfclk := s.request_normal.hfclk, priority := Priority.NORMAL,
          distance_us := interval_us, length_us := len_us }) := by
  obtain ⟨a1, a2, a3⟩ := run_keeps_timing c later _ (s, tr) hl hrun
  have hstart : (timeslot_start s0 len_us interval_us mpsl_ret).st.conn_interval_us = interval_us ∧
      (timeslot_start s0 len_us interval_us mpsl_ret).st.request_normal.length_us = len_us := by
    simp only [timeslot_start, ho, hs, hst, Bool.not_true, Bool.or_self, Bool.false_eq_true,
      if_false, and_self]
  simp only at a2 a3
  rw [hstart.1] at a2
  rw [hstart.2] at a3
  have hcb : mpsl_cb c s MpslSignal.TIMER0 =
      some { st := { k_poll_signal_raise s SIGNAL_CODE_TIMER0 with
                     request_normal := { s.request_normal with
                       distance_us := s.conn_interval_us
                       priority := Priority.NORMAL } },
             action := Action.REQUEST (Request.NORMAL { s.request_normal with
                       distance_us := s.conn_interval_us
                       priority := Priority.NORMAL }),
             trace := [] } := by
    simp only [mpsl_cb, k_poll_signal_raise, hstop, Bool.false_eq_true, if_false]
  refine ⟨_, hcb, rfl, ?_⟩
  simp only [a2, a3]

theorem deadline_requests_fixed_interval_witness :
    run false (timeslot_start (timeslot_open false State.init (some scenarioConfig)
          (some scenarioCallbacks) 0 7).st 1000 10000 0).st
        [Input.mpsl_cb MpslSignal.START, Input.thread_iteration 0,
         Input.mpsl_cb MpslSignal.BLOCKED, Input.thread_iteration 0] =
      some ({ scenarioDenied 1 with
                timeslot_sig := { signaled := false, result := SIGNAL_CODE_BLOCKED_CANCELLED } },
        [Event.cb_start,
         Event.mpsl_timeslot_request 7
           (Request.NORMAL { hfclk := 1, priority := Priority.HIGH, distance_us := 20000,
                             length_us := 1000 }),
         Event.cb_skipped 1]) ∧
    ∃ r, mpsl_cb false
        { scenarioDenied 1 with
            timeslot_sig := { signaled := false, result := SIGNAL_CODE_BLOCKED_CANCELLED } }
        MpslSignal.TIMER0 = some r ∧
      r.st.timeslot_sig = { signaled := true, result := SIGNAL_CODE_TIMER0 } ∧
      r.action = Action.REQUEST (Request.NORMAL
        { hfclk := 1, priority := Priority.NORMAL, distance_us := 10000, length_us := 1000 }) :=
  ⟨rfl,
   deadline_requests_fixed_interval false
     (timeslot_open false State.init (some scenarioConfig) (some scenarioCallbacks) 0 7).st
     1000 10000 0 rfl rfl rfl
     [Input.mpsl_cb MpslSignal.START, Input.thread_iteration 0,
      Input.mpsl_cb MpslSignal.BLOCKED, Input.thread_iteration 0]
     (by decide)
     { scenarioDenied 1 with
         timeslot_sig := { signaled := false, result := SIGNAL_CODE_BLOCKED_CANCELLED } }
     _ rfl rfl⟩

/-! ## One worker pass on a raised signal -/

theorem thread_iteration_of_switch (c : Bool) (s s1 : State) (code : Nat) (e : Int)
    (tr : List Event) (halive : s.thread_returned = false)
    (hsig : s.timeslot_sig = { signaled := true, result := code })
    (hsw : thread_switch c s code e = some (s1, tr)) (h1 : s1.thread_returned = false) :
    thread_iteration c s e =
      some ({ s1 with timeslot_sig := { s1.timeslot_sig with signaled := false } }, tr) := by
  unfold thread_iteration
  simp only [halive, hsig, Bool.not_true, Bool.or_self, Bool.false_eq_true, if_false, hsw,
    Option.map_some', h1]

theorem thread_switch_START (c : Bool) (s : State) (e : Int) :
    thread_switch c s SIGNAL_CODE_START e =
      (call_cb s timeslot_cb.start Event.cb_start).map fun tr =>
        ({ s with blocked_cancelled_count := 0, timeslot_anchored := true }, tr) := by
  simp [thread_switch]

theorem thread_switch_TIMER0 (c : Bool) (s : State) (e : Int) :
    thread_switch c s SIGNAL_CODE_TIMER0 e =
      (call_cb s timeslot_cb.end_ Event.cb_end).map fun tr => (s, tr) := by
  simp [thread_switch, SIGNAL_CODE_TIMER0, SIGNAL_CODE_START]

theorem thread_switch_IDLE (c : Bool) (s : State) (e : Int) :
    thread_switch c s SIGNAL_CODE_IDLE e = thread_idle s := by
  simp [thread_switch, SIGNAL_CODE_IDLE, SIGNAL_CODE_START, SIGNAL_CODE_TIMER0,
    SIGNAL_CODE_RADIO, SIGNAL_CODE_BLOCKED_CANCELLED]

theorem call_cb_some (s : State) (cb : timeslot_cb) (m : timeslot_cb → Bool) (e : Event)
    (hcb : s.p_timeslot_callbacks = some cb) (hm : m cb = true) : call_cb s m e = some [e] :=
  (call_cb_eq_some s m e [e]).2 ⟨cb, hcb, hm, rfl⟩

/-- C9: for an open, started session with a live worker (callback table
stored, `end` and `stopped` members set): `timeslot_stop` returns 0; `mpsl_cb`
then answers TIMER0 with `END`; and the run stop, TIMER0 delivered, worker
pass, session-idle delivered, worker pass makes exactly the outside calls
`end()` and `stopped()`, in that order (one `stopped`, no `error`), and ends
with started, stopping and anchored cleared and the session still open, where
`timeslot_start` with an accepting MPSL returns 0. -/
theorem stop_deadline_idle (c : Bool) (s : State) (cb : timeslot_cb) (e1 e2 : Int)
    (len_us interval_us : Nat)
    (ho : s.session_open = true) (hs : s.timeslot_started = true)
    (halive : s.thread_returned = false)
    (hcb : s.p_timeslot_callbacks = some cb)
    (hend : cb.end_ = true) (hstopped : cb.stopped = true) :
    (timeslot_stop s).ret = Status.code 0 ∧
    (∃ r, mpsl_cb c (timeslot_stop s).st MpslSignal.TIMER0 = some r ∧ r.action = Action.END) ∧
    run c s [Input.timeslot_stop, Input.mpsl_cb MpslSignal.TIMER0, Input.thread_iteration e1,
             Input.mpsl_cb MpslSignal.SESSION_IDLE, Input.thread_iteration e2] =
      some ({ s with
                timeslot_stopping := false
                timeslot_started := false
                timeslot_anchored := false
                timeslot_sig := { signaled := false, result := SIGNAL_CODE_IDLE } },
            [Event.cb_end, Event.cb_stopped]) ∧
    (timeslot_start
        { s with
            timeslot_stopping := false
            timeslot_started := false
            timeslot_anchored := false
            timeslot_sig := { signaled := false, result := SIGNAL_CODE_IDLE } }
        len_us interval_us 0).ret = Status.code 0 := by
  have hstopeq : timeslot_stop s =
      { st := { s with timeslot_stopping := true }, ret := Status.code 0, trace := [] } := by
    simp [timeslot_stop, ho, hs]
  have hcb1 : mpsl_cb c { s with timeslot_stopping := true } MpslSignal.TIMER0 =
      some { st := { s with
                      timeslot_stopping := true
                      timeslot_sig := { signaled := true, result := SIGNAL_CODE_TIMER0 } },
             action := Action.END, trace := [] } := by
    simp [mpsl_cb, k_poll_signal_raise]
  have hw1 : thread_iteration c
      { s with
          timeslot_stopping := true
          timeslot_sig := { signaled := true, result := SIGNAL_CODE_TIMER0 } } e1 =
      some ({ s with
                timeslot_stopping := true
                timeslot_sig := { signaled := false, result := SIGNAL_CODE_TIMER0 } },
            [Event.cb_end]) := by
    refine thread_iteration_of_switch c
      { s with
          timeslot_stopping := true
          timeslot_sig := { signaled := true, result := SIGNAL_CODE_TIMER0 } }
      { s with
          timeslot_stopping := true
          timeslot_sig := { signaled := true, result := SIGNAL_CODE_TIMER0 } }
      SIGNAL_CODE_TIMER0 e1 [Event.cb_end] halive rfl ?_ halive
    have := call_cb_some
      { s with
          timeslot_stopping := true
          timeslot_sig := { signaled := true, result := SIGNAL_CODE_TIMER0 } }
      cb timeslot_cb.end_ Event.cb_end hcb hend
    rw [thread_switch_TIMER0, this]
    rfl
  have hcb2 : mpsl_cb c
      { s with
          timeslot_stopping := true
          timeslot_sig := { signaled := false, result := SIGNAL_CODE_TIMER0 } }
      MpslSignal.SESSION_IDLE =
      some { st := { s with
                      timeslot_stopping := true
                      timeslot_sig := { signaled := true, result := SIGNAL_CODE_IDLE } },
             action := Action.NONE, trace := [] } := by
    simp [mpsl_cb, k_poll_signal_raise]
  have hw2 : thread_iteration c
      { s with
          timeslot_stopping := true
          timeslot_sig := { signaled := true, result := SIGNAL_CODE_IDLE } } e2 =
      some ({ s with
                timeslot_stopping := false
                timeslot_started := false
                timeslot_anchored := false
                timeslot_sig := { signaled := false, result := SIGNAL_CODE_IDLE } },
            [Event.cb_stopped]) := by
    refine thread_iteration_of_switch c
      { s with
          timeslot_stopping := true
          timeslot_sig := { signaled := true, result := SIGNAL_CODE_IDLE } }
      { s with
          timeslot_stopping := false
          timeslot_started := false
          timeslot_anchored := false
          timeslot_sig := { signaled := true, result := SIGNAL_CODE_IDLE } }
      SIGNAL_CODE_IDLE e2 [Event.cb_stopped] halive rfl ?_ halive
    have := call_cb_some
      { s with
          timeslot_stopping := false
          timeslot_started := false
          timeslot_anchored := false
          timeslot_sig := { signaled := true, result := SIGNAL_CODE_IDLE } }
      cb timeslot_cb.stopped Event.cb_stopped hcb hstopped
    rw [thread_switch_IDLE]
    unfold thread_idle timeslot_stopped
    simp only [if_true]
    rw [this]
    rfl
  refine ⟨by rw [hstopeq], ⟨_, by rw [hstopeq]; exact hcb1, rfl⟩, ?_, ?_⟩
  · simp only [run, step, hstopeq, hcb1, hw1, hcb2, hw2, Option.map_some', List.nil_append,
      List.append_nil, List.singleton_append]
  · simp [timeslot_start, ho]

theorem stop_deadline_idle_witness :
    run false scenarioAnchored
        [Input.timeslot_stop, Input.mpsl_cb MpslSignal.TIMER0, Input.thread_iteration 0,
         Input.mpsl_cb MpslSignal.SESSION_IDLE, Input.thread_iteration 0] =
      some ({ scenarioAnchored with
                timeslot_stopping := false
                timeslot_started := false
                timeslot_anchored := false
                timeslot_sig := { signaled := false, result := SIGNAL_CODE_IDLE } },
            [Event.cb_end, Event.cb_stopped]) :=
  (stop_deadline_idle false scenarioAnchored scenarioCallbacks 0 0 1000 10000
    rfl rfl rfl rfl rfl rfl).2.2.1

/-- C10: the worker's handling of a raised `SIGNAL_CODE_START` makes exactly
one outside call, the `start` callback, zeroes `blocked_cancelled_count`, sets
`timeslot_anchored`, marks the signal consumed and changes nothing else (so
started, stopping, length and interval stay, and no request is made). -/
theorem thread_handles_start (c : Bool) (s : State) (cb : timeslot_cb) (mpsl_ret : Int)
    (halive : s.thread_returned = false)
    (hsig : s.timeslot_sig = { signaled := true, result := SIGNAL_CODE_START })
    (hcb : s.p_timeslot_callbacks = some cb) (hstart : cb.start = true) :
    thread_iteration c s mpsl_ret =
      some ({ s with
                blocked_cancelled_count := 0
                timeslot_anchored := true
                timeslot_sig := { signaled := false, result := SIGNAL_CODE_START } },
            [Event.cb_start]) := by
  have hsw : thread_switch c s SIGNAL_CODE_START mpsl_ret =
      some ({ s with blocked_cancelled_count := 0, timeslot_anchored := true },
            [Event.cb_start]) := by
    rw [thread_switch_START, call_cb_some s cb timeslot_cb.start Event.cb_start hcb hstart]
    rfl
  have h := thread_iteration_of_switch c s _ SIGNAL_CODE_START mpsl_ret _ halive hsig hsw halive
  rw [h]
  simp only [hsig]

theorem thread_handles_start_witness :
    run false State.init
        [Input.timeslot_open (some scenarioConfig) (some scenarioCallbacks) 0 7,
         Input.timeslot_start 1000 10000 0,
         Input.mpsl_cb MpslSignal.START] =
      some ({ scenarioAnchored with
                timeslot_anchored := false
                timeslot_sig := { signaled := true, result := SIGNAL_CODE_START } },
        [Event.mpsl_timeslot_session_open,
         Event.mpsl_timeslot_request 7
           (Request.EARLIEST { hfclk := 1, priority := Priority.NORMAL, length_us := 1000,
                               timeout_us := 2000000 })]) ∧
    thread_iteration false
        { scenarioAnchored with
            timeslot_anchored := false
            timeslot_sig := { signaled := true, result := SIGNAL_CODE_START } } 0 =
      some (scenarioAnchored, [Event.cb_start]) :=
  ⟨rfl,
   thread_handles_start false
     { scenarioAnchored with
         timeslot_anchored := false
         timeslot_sig := { signaled := true, result := SIGNAL_CODE_START } }
     scenarioCallbacks 0 rfl rfl rfl rfl⟩

/-- C11, as stated, fails: in an open, started session with a stop already
pending, a second `timeslot_stop` returns 0, not an error. -/
theorem second_stop_returns_zero :
    (timeslot_stop (timeslot_stop scenarioAnchored).st).ret = Status.code 0 ∧
    (timeslot_stop scenarioAnchored).st.session_open = true ∧
    (timeslot_stop scenarioAnchored).st.timeslot_started = true ∧
    (timeslot_stop scenarioAnchored).st.timeslot_stopping = true := by
  decide

/-- C11, amended: in every state with the session open, a timeslot started
and a stop already pending, `timeslot_stop` returns 0 (success), leaves the
whole state as it was (the stop stays pending) and makes no outside call. -/
theorem timeslot_stop_again (s : State) (ho : s.session_open = true)
    (hs : s.timeslot_started = true) (hst : s.timeslot_stopping = true) :
    timeslot_stop s = { st := s, ret := Status.code 0, trace := [] } := by
  have hself : { s with timeslot_stopping := true } = s := by
    cases s
    simp only at hst
    subst hst
    rfl
  unfold timeslot_stop
  rw [if_neg (by simp [ho, hs]), hself]

theorem timeslot_stop_again_witness :
    timeslot_stop { scenarioAnchored with timeslot_stopping := true } =
      { st := { scenarioAnchored with timeslot_stopping := true }, ret := Status.code 0,
        trace := [] } :=
  timeslot_stop_again { scenarioAnchored with timeslot_stopping := true } rfl rfl rfl

/-- C19: when `timeslot_start` passes its guard, whatever code the MPSL
returns for the Earliest request (a non-zero rejection included), the
function returns that code and keeps its updates: `timeslot_started` is set, the new length and interval are
stored and the counter is 0; a repeated `timeslot_start` (any arguments, any
MPSL answer) then returns `-TIMESLOT_ERROR_TIMESLOT_ALREADY_STARTED`, changes
nothing and makes no request. -/
theorem timeslot_start_no_rollback (s : State) (len_us interval_us : Nat) (mpsl_ret : Int)
    (ho : s.session_open = true) (hs : s.timeslot_started = false)
    (hst : s.timeslot_stopping = false) :
    (timeslot_start s len_us interval_us mpsl_ret).ret = Status.code mpsl_ret ∧
    (timeslot_start s len_us interval_us mpsl_ret).st.timeslot_started = true ∧
    (timeslot_start s len_us interval_us mpsl_ret).st.ts_len_us = len_us ∧
    (timeslot_start s len_us interval_us mpsl_ret).st.conn_interval_us = interval_us ∧
    (timeslot_start s len_us interval_us mpsl_ret).st.blocked_cancelled_count = 0 ∧
    ∀ (len2 interval2 : Nat) (ret2 : Int),
      timeslot_start (timeslot_start s len_us interval_us mpsl_ret).st len2 interval2 ret2 =
        { st := (timeslot_start s len_us interval_us mpsl_ret).st,
          ret := Status.neg TIMESLOT_ERROR.TIMESLOT_ALREADY_STARTED, trace := [] } := by
  have h1 : timeslot_start s len_us interval_us mpsl_ret =
      { st := { s with
                  ts_len_us := len_us
                  conn_interval_us := interval_us
                  blocked_cancelled_count := 0
                  timeslot_started := true
                  request_normal := { s.request_normal with length_us := len_us }
                  request_earliest := { s.request_earliest with length_us := len_us } },
        ret := Status.code mpsl_ret,
        trace := [Event.mpsl_timeslot_request s.mpsl_session_id
                    (Request.EARLIEST { s.request_earliest with length_us := len_us })] } := by
    simp only [timeslot_start, ho, hs, hst, Bool.not_true, Bool.or_self, Bool.false_eq_true,
      if_false]
  rw [h1]
  refine ⟨rfl, rfl, rfl, rfl, rfl, ?_⟩
  intro len2 interval2 ret2
  simp only [timeslot_start, Bool.or_true, Bool.true_or, if_true]

theorem timeslot_start_no_rollback_witness :
    (timeslot_start
        (timeslot_open false State.init (some scenarioConfig) (some scenarioCallbacks) 0 7).st
        1000 10000 (-22)).ret = Status.code (-22) ∧
    (timeslot_start
        (timeslot_open false State.init (some scenarioConfig) (some scenarioCallbacks) 0 7).st
        1000 10000 (-22)).st.timeslot_started = true :=
  ⟨(timeslot_start_no_rollback
      (timeslot_open false State.init (some scenarioConfig) (some scenarioCallbacks) 0 7).st
      1000 10000 (-22) rfl rfl rfl).1,
   (timeslot_start_no_rollback
      (timeslot_open false State.init (some scenarioConfig) (some scenarioCallbacks) 0 7).st
      1000 10000 (-22) rfl rfl rfl).2.1⟩

/-! ## Who makes which outside call -/

theorem mpsl_cb_trace (c : Bool) (s : State) (sig : MpslSignal) (r : CbResult)
    (h : mpsl_cb c s sig = some r) :
    r.trace = [] ∨ r.trace = [Event.RADIO_IRQHandler] := by
  unfold mpsl_cb at h
  cases sig <;> simp only [k_poll_signal_raise] at h <;> (try split at h) <;>
    (try split at h) <;> (try simp at h) <;> (try subst h) <;> simp

theorem timeslot_open_trace (c : Bool) (s : State) (p_config : Option timeslot_config)
    (p_cb : Option timeslot_cb) (e : Int) (id : Nat) :
    (timeslot_open c s p_config p_cb e id).trace = [] ∨
    (timeslot_open c s p_config p_cb e id).trace = [Event.mpsl_timeslot_session_open] := by
  unfold timeslot_open
  by_cases ho : s.session_open = true
  · rw [if_pos ho]; exact Or.inl rfl
  · rw [if_neg ho]
    cases p_config with
    | none => exact Or.inl rfl
    | some cfg =>
      cases p_cb with
      | none => exact Or.inl rfl
      | some cb =>
        dsimp only
        by_cases h1 : (!cb.error || !cb.start || !cb.end_) = true
        · rw [if_pos h1]; exact Or.inl rfl
        · rw [if_neg h1]
          by_cases h2 : (!c && !cb.radio_irq) = true
          · rw [if_pos h2]; exact Or.inl rfl
          · rw [if_neg h2]
            by_cases h3 : e ≠ 0
            · rw [if_pos h3]; exact Or.inr rfl
            · rw [if_neg h3]; exact Or.inr rfl

theorem timeslot_start_trace (s : State) (len_us interval_us : Nat) (e : Int) :
    ∀ ev ∈ (timeslot_start s len_us interval_us e).trace, ev.isCallback = false := by
  unfold timeslot_start
  split_ifs
  · intro ev hev; exact absurd hev (by simp)
  · intro ev hev
    simp only [List.mem_singleton] at hev
    subst hev
    rfl

theorem timeslot_stop_trace (s : State) : (timeslot_stop s).trace = [] := by
  unfold timeslot_stop
  split_ifs <;> rfl

/-- C17: `mpsl_cb` makes no call through the callback table, for any signal
and state: the only outside call it can make is `RADIO_IRQHandler()` (the
radio interrupt handler symbol, called on a radio signal in a build with
`TIMESLOT_CALLS_RADIO_IRQHANDLER`), which is not a member of the table.
`timeslot_open`, `timeslot_start` and `timeslot_stop` make no such call
either, so in any step of the system a call of `start`, `end`, `radio_irq`,
`error`, `skipped` or `stopped` comes from a pass of the worker loop. -/
theorem callbacks_only_from_worker (c : Bool) (s : State) :
    (∀ sig r, mpsl_cb c s sig = some r → ∀ ev ∈ r.trace, ev.isCallback = false) ∧
    (∀ p_config p_cb e id,
      ∀ ev ∈ (timeslot_open c s p_config p_cb e id).trace, ev.isCallback = false) ∧
    (∀ len_us interval_us e,
      ∀ ev ∈ (timeslot_start s len_us interval_us e).trace, ev.isCallback = false) ∧
    (∀ ev ∈ (timeslot_stop s).trace, ev.isCallback = false) ∧
    (∀ i s1 tr, step c s i = some (s1, tr) → (∃ ev ∈ tr, ev.isCallback = true) →
      ∃ e, i = Input.thread_iteration e) := by
  have hm : ∀ sig r, mpsl_cb c s sig = some r → ∀ ev ∈ r.trace, ev.isCallback = false := by
    intro sig r h ev hev
    rcases mpsl_cb_trace c s sig r h with h1 | h1
    · rw [h1] at hev; exact absurd hev (by simp)
    · rw [h1, List.mem_singleton] at hev
      subst hev
      rfl
  have hop : ∀ p_config p_cb e id,
      ∀ ev ∈ (timeslot_open c s p_config p_cb e id).trace, ev.isCallback = false := by
    intro p_config p_cb e id ev hev
    rcases timeslot_open_trace c s p_config p_cb e id with h1 | h1
    · rw [h1] at hev; exact absurd hev (by simp)
    · rw [h1, List.mem_singleton] at hev
      subst hev
      rfl
  have hstp : ∀ ev ∈ (timeslot_stop s).trace, ev.isCallback = false := by
    intro ev hev
    rw [timeslot_stop_trace] at hev
    exact absurd hev (by simp)
  refine ⟨hm, hop, timeslot_start_trace s, hstp, ?_⟩
  intro i s1 tr h hex
  obtain ⟨ev, hev, hcb⟩ := hex
  cases i with
  | timeslot_open p_config p_cb e id =>
    simp only [step, Option.some.injEq, Prod.mk.injEq] at h
    rw [← h.2] at hev
    rw [hop p_config p_cb e id ev hev] at hcb
    exact absurd hcb (by decide)
  | timeslot_start len_us interval_us e =>
    simp only [step, Option.some.injEq, Prod.mk.injEq] at h
    rw [← h.2] at hev
    rw [timeslot_start_trace s len_us interval_us e ev hev] at hcb
    exact absurd hcb (by decide)
  | timeslot_stop =>
    simp only [step, Option.some.injEq, Prod.mk.injEq] at h
    rw [← h.2] at hev
    rw [hstp ev hev] at hcb
    exact absurd hcb (by decide)
  | mpsl_cb sig =>
    simp only [step, Option.map_eq_some', Prod.mk.injEq] at h
    obtain ⟨r0, h0, -, h2⟩ := h
    rw [← h2] at hev
    rw [hm sig r0 h0 ev hev] at hcb
    exact absurd hcb (by decide)
  | thread_iteration e => exact ⟨e, rfl⟩

theorem callbacks_only_from_worker_witness :
    mpsl_cb true scenarioAnchored MpslSignal.RADIO =
      some { st := scenarioAnchored, action := Action.NONE,
             trace := [Event.RADIO_IRQHandler] } ∧
    ∀ ev ∈ [Event.RADIO_IRQHandler], ev.isCallback = false :=
  ⟨rfl, (callbacks_only_from_worker true scenarioAnchored).1 MpslSignal.RADIO
      { st := scenarioAnchored, action := Action.NONE, trace := [Event.RADIO_IRQHandler] } rfl⟩

/-- C18, as stated, fails: with a stop pending (open, start accepted, stop),
`mpsl_cb` on slot-start returns `END` and leaves the state as it was: the
TIMER0 compare interrupt is not armed and no signal is raised. -/
theorem slot_start_while_stopping :
    run false State.init
        [Input.timeslot_open (some scenarioConfig) (some scenarioCallbacks) 0 7,
         Input.timeslot_start 1000 10000 0,
         Input.timeslot_stop] =
      some ({ scenarioAnchored with
                timeslot_anchored := false
                timeslot_stopping := true
                timeslot_sig := { signaled := false, result := 0 }
                timer0_intenset_compare0 := false
                timer0_cc0 := 0
                timer0_irq_enabled := false },
        [Event.mpsl_timeslot_session_open,
         Event.mpsl_timeslot_request 7
           (Request.EARLIEST { hfclk := 1, priority := Priority.NORMAL, length_us := 1000,
                               timeout_us := 2000000 })]) ∧
    mpsl_cb false
        { scenarioAnchored with
            timeslot_anchored := false
            timeslot_stopping := true
            timeslot_sig := { signaled := false, result := 0 }
            timer0_intenset_compare0 := false
            timer0_cc0 := 0
            timer0_irq_enabled := false }
        MpslSignal.START =
      some { st := { scenarioAnchored with
                       timeslot_anchored := false
                       timeslot_stopping := true
                       timeslot_sig := { signaled := false, result := 0 }
                       timer0_intenset_compare0 := false
                       timer0_cc0 := 0
                       timer0_irq_enabled := false },
             action := Action.END, trace := [] } := by
  constructor <;> rfl

/-- C18, amended: on slot-start with no stop pending, `mpsl_cb` enables the
TIMER0 compare-0 interrupt, sets `CC[0]` to `ts_len_us - safety_margin_us`
reduced modulo 2^32 (the plain difference when the margin does not exceed the
length), raises `SIGNAL_CODE_START`, changes nothing else and returns `NONE`;
with a stop pending it returns `END`, arms nothing and raises nothing. -/
theorem mpsl_cb_slot_start (c : Bool) (s : State) (cfg : timeslot_config)
    (hcfg : s.p_timeslot_config = some cfg) :
    (s.timeslot_stopping = false →
      ∃ cc0 : Nat,
        mpsl_cb c s MpslSignal.START =
          some { st := { s with
                           timer0_intenset_compare0 := true
                           timer0_cc0 := cc0
                           timer0_irq_enabled := true
                           timeslot_sig := { signaled := true, result := SIGNAL_CODE_START } },
                 action := Action.NONE, trace := [] } ∧
        (cc0 : Int) = ((s.ts_len_us : Int) - (cfg.safety_margin_us : Int)) % 4294967296 ∧
        (cfg.safety_margin_us ≤ s.ts_len_us → s.ts_len_us < 4294967296 →
          cc0 = s.ts_len_us - cfg.safety_margin_us)) ∧
    (s.timeslot_stopping = true →
      mpsl_cb c s MpslSignal.START = some { st := s, action := Action.END, trace := [] }) := by
  constructor
  · intro hst
    refine ⟨(s.ts_len_us + (4294967296 - cfg.safety_margin_us % 4294967296)) % 4294967296,
      ?_, ?_, ?_⟩
    · simp only [mpsl_cb, hst, hcfg, k_poll_signal_raise, Bool.false_eq_true, if_false]
    · omega
    · intro h1 h2
      omega
  · intro hst
    simp only [mpsl_cb, hst, if_true]

theorem mpsl_cb_slot_start_witness :
    ∃ cc0 : Nat,
      mpsl_cb false
          { scenarioAnchored with
              timeslot_anchored := false
              timer0_intenset_compare0 := false
              timer0_cc0 := 0
              timer0_irq_enabled := false
              timeslot_sig := { signaled := false, result := 0 } }
          MpslSignal.START =
        some { st := { scenarioAnchored with
                         timeslot_anchored := false
                         timer0_cc0 := cc0
                         timeslot_sig := { signaled := true, result := SIGNAL_CODE_START } },
               action := Action.NONE, trace := [] } ∧
      cc0 = 1000 - 100 := by
  obtain ⟨cc0, h1, -, h3⟩ :=
    (mpsl_cb_slot_start false
      { scenarioAnchored with
          timeslot_anchored := false
          timer0_intenset_compare0 := false
          timer0_cc0 := 0
          timer0_irq_enabled := false
          timeslot_sig := { signaled := false, result := 0 } }
      scenarioConfig rfl).1 rfl
  exact ⟨cc0, h1, h3 (by decide) (by decide)⟩

/-! ## The started and stopping flags -/

theorem timeslot_stopped_flags (s : State) (r : State × List Event)
    (h : timeslot_stopped s = some r) :
    r.1.timeslot_started = false ∧ r.1.timeslot_stopping = false := by
  unfold timeslot_stopped at h
  simp only [Option.map_eq_some'] at h
  obtain ⟨tr, -, rfl⟩ := h
  exact ⟨rfl, rfl⟩

theorem thread_retry_flags (s : State) (e : Int) (r : State × List Event)
    (h : thread_retry s e = some r) : FlagsKeptOrCleared s r.1 := by
  unfold thread_retry at h
  by_cases he : e = 0
  · simp only [he, ne_eq, not_true_eq_false, if_false, Option.map_eq_some'] at h
    obtain ⟨tr, -, rfl⟩ := h
    refine Or.inl ?_
    split_ifs <;> exact ⟨rfl, rfl⟩
  · simp only [he, ne_eq, not_false_eq_true, if_true, Option.bind_eq_some,
      Option.map_eq_some'] at h
    obtain ⟨tr1, -, tr2, -, rfl⟩ := h
    exact Or.inr ⟨rfl, rfl⟩

theorem thread_blocked_cancelled_flags (s : State) (e : Int) (r : State × List Event)
    (h : thread_blocked_cancelled s e = some r) : FlagsKeptOrCleared s r.1 := by
  unfold thread_blocked_cancelled at h
  cases hcfg : s.p_timeslot_config with
  | none => simp only [hcfg] at h; exact absurd h (by simp)
  | some cfg =>
    simp only [hcfg] at h
    by_cases h1 : (s.blocked_cancelled_count + 1) % 256 > cfg.skipped_tolerance
    · simp only [h1, if_true, Option.map_eq_some'] at h
      obtain ⟨tr, -, rfl⟩ := h
      exact Or.inl ⟨rfl, rfl⟩
    · simp only [h1, if_false] at h
      by_cases h2 : s.timeslot_stopping = true
      · rw [if_pos h2] at h
        exact Or.inr (timeslot_stopped_flags _ _ h)
      · rw [if_neg h2] at h
        have hr := thread_retry_flags _ _ _ h
        exact hr

theorem thread_switch_flags (c : Bool) (s : State) (res : Nat) (e : Int)
    (r : State × List Event) (h : thread_switch c s res e = some r) :
    FlagsKeptOrCleared s r.1 := by
  unfold thread_switch at h
  split_ifs at h
  · simp only [Option.map_eq_some'] at h
    obtain ⟨tr, -, rfl⟩ := h
    exact Or.inl ⟨rfl, rfl⟩
  · simp only [Option.map_eq_some'] at h
    obtain ⟨tr, -, rfl⟩ := h
    exact Or.inl ⟨rfl, rfl⟩
  · simp only [Option.map_eq_some'] at h
    obtain ⟨tr, -, rfl⟩ := h
    exact Or.inl ⟨rfl, rfl⟩
  · exact thread_blocked_cancelled_flags _ _ _ h
  · unfold thread_idle at h
    split_ifs at h
    · exact Or.inr (timeslot_stopped_flags _ _ h)
    · simp only [Option.map_eq_some'] at h
      obtain ⟨tr, -, rfl⟩ := h
      exact Or.inl ⟨rfl, rfl⟩
  · simp only [Option.map_eq_some'] at h
    obtain ⟨tr, -, rfl⟩ := h
    exact Or.inl ⟨rfl, rfl⟩
  · simp only [Option.map_eq_some'] at h
    obtain ⟨tr, -, rfl⟩ := h
    exact Or.inl ⟨rfl, rfl⟩

theorem thread_iteration_flags (c : Bool) (s : State) (e : Int)
    (r : State × List Event) (h : thread_iteration c s e = some r) :
    FlagsKeptOrCleared s r.1 := by
  unfold thread_iteration at h
  split_ifs at h
  · simp only [Option.some.injEq] at h
    subst h
    exact Or.inl ⟨rfl, rfl⟩
  · simp only [Option.map_eq_some'] at h
    obtain ⟨r0, h0, rfl⟩ := h
    have hf := thread_switch_flags _ _ _ _ _ h0
    split_ifs
    · exact hf
    · exact hf

theorem step_flags (c : Bool) (s : State) (i : Input) (r : State × List Event)
    (h : step c s i = some r) :
    (r.1.timeslot_stopping = true → s.timeslot_stopping = false →
      s.timeslot_started = true ∧ r.1.timeslot_started = true) ∧
    (s.timeslot_started = true → r.1.timeslot_started = false →
      r.1.timeslot_stopping = false) := by
  cases i with
  | timeslot_open p_config p_cb e id =>
    simp only [step, Option.some.injEq] at h
    subst h
    have hk : (timeslot_open c s p_config p_cb e id).st.timeslot_started = s.timeslot_started ∧
        (timeslot_open c s p_config p_cb e id).st.timeslot_stopping = s.timeslot_stopping := by
      unfold timeslot_open
      by_cases ho : s.session_open = true
      · rw [if_pos ho]; exact ⟨rfl, rfl⟩
      · rw [if_neg ho]
        cases p_config with
        | none => exact ⟨rfl, rfl⟩
        | some cfg =>
          cases p_cb with
          | none => exact ⟨rfl, rfl⟩
          | some cb =>
            dsimp only
            split_ifs <;> exact ⟨rfl, rfl⟩
    dsimp only
    rw [hk.1, hk.2]
    constructor
    · intro h1 h2; rw [h1] at h2; exact absurd h2 (by decide)
    · intro h1 h2; rw [h1] at h2; exact absurd h2 (by decide)
  | timeslot_start len_us interval_us e =>
    simp only [step, Option.some.injEq] at h
    subst h
    dsimp only
    unfold timeslot_start
    by_cases hg : (!s.session_open || s.timeslot_started || s.timeslot_stopping) = true
    · rw [if_pos hg]
      constructor
      · intro h1 h2; rw [h1] at h2; exact absurd h2 (by decide)
      · intro h1 h2; rw [h1] at h2; exact absurd h2 (by decide)
    · rw [if_neg hg]
      simp only [Bool.or_eq_true, not_or, Bool.not_eq_true] at hg
      constructor
      · intro h1 h2
        dsimp only at h1
        rw [hg.2] at h1
        exact absurd h1 (by decide)
      · intro h1 h2
        dsimp only at h2
        exact absurd h2 (by decide)
  | timeslot_stop =>
    simp only [step, Option.some.injEq] at h
    subst h
    dsimp only
    unfold timeslot_stop
    by_cases hg : (!s.session_open || !s.timeslot_started) = true
    · rw [if_pos hg]
      constructor
      · intro h1 h2; rw [h1] at h2; exact absurd h2 (by decide)
      · intro h1 h2; rw [h1] at h2; exact absurd h2 (by decide)
    · rw [if_neg hg]
      simp only [Bool.or_eq_true, not_or, Bool.not_eq_true, Bool.not_eq_false'] at hg
      have hs : s.timeslot_started = true := by
        cases hst : s.timeslot_started
        · rw [hst] at hg; exact absurd hg.2 (by decide)
        · rfl
      constructor
      · intro _ _; exact ⟨hs, hs⟩
      · intro _ h2
        dsimp only at h2
        rw [hs] at h2
        exact absurd h2 (by decide)
  | mpsl_cb sig =>
    simp only [step, Option.map_eq_some'] at h
    obtain ⟨r0, h0, rfl⟩ := h
    have hf := mpsl_cb_frame c s sig r0 h0
    dsimp only
    rw [hf.2.2.2.2.2.2.2.2.1, hf.2.2.2.2.2.2.2.2.2.1]
    constructor
    · intro h1 h2; rw [h1] at h2; exact absurd h2 (by decide)
    · intro h1 h2; rw [h1] at h2; exact absurd h2 (by decide)
  | thread_iteration e =>
    simp only [step] at h
    rcases thread_iteration_flags c s e r h with ⟨k1, k2⟩ | ⟨k1, k2⟩
    · rw [k1, k2]
      constructor
      · intro h1 h2; rw [h1] at h2; exact absurd h2 (by decide)
      · intro h1 h2; rw [h1] at h2; exact absurd h2 (by decide)
    · constructor
      · intro h1 _; rw [k2] at h1; exact absurd h1 (by decide)
      · intro _ _; exact k2

theorem run_induction (c : Bool) (P : State → Prop)
    (hstep : ∀ (s : State) (i : Input) (r : State × List Event),
      step c s i = some r → P s → P r.1) (inputs : List Input) :
    ∀ (s : State) (r : State × List Event), run c s inputs = some r → P s → P r.1 := by
  induction inputs with
  | nil =>
    intro s r h hP
    simp only [run, Option.some.injEq] at h
    subst h
    exact hP
  | cons i rest ih =>
    intro s r h hP
    simp only [run] at h
    cases h1 : step c s i with
    | none => simp [h1] at h
    | some r1 =>
      obtain ⟨s1, tr1⟩ := r1
      simp only [h1] at h
      cases h2 : run c s1 rest with
      | none => simp [h2] at h
      | some r2 =>
        obtain ⟨s2, tr2⟩ := r2
        simp only [h2, Option.some.injEq] at h
        subst h
        exact ih s1 (s2, tr2) h2 (hstep s i (s1, tr1) h1 hP)

/-- C16: no step of the system sets `timeslot_stopping` unless
`timeslot_started` is set before and after the step, and no step clears
`timeslot_started` while leaving `timeslot_stopping` set (both for every
state, reachable or not); hence in every state reached from the initial one
by any inputs (`timeslot_open`, `timeslot_start`, `timeslot_stop`, signal
deliveries, worker passes, with any MPSL answers) `timeslot_stopping` implies
`timeslot_started`. -/
theorem stopping_implies_started (c : Bool) :
    (∀ (s : State) (i : Input) (s1 : State) (tr : List Event), step c s i = some (s1, tr) →
      (s1.timeslot_stopping = true → s.timeslot_stopping = false →
        s.timeslot_started = true ∧ s1.timeslot_started = true) ∧
      (s.timeslot_started = true → s1.timeslot_started = false →
        s1.timeslot_stopping = false)) ∧
    (∀ (inputs : List Input) (s : State) (tr : List Event),
      run c State.init inputs = some (s, tr) →
      s.timeslot_stopping = true → s.timeslot_started = true) := by
  refine ⟨fun s i s1 tr h => step_flags c s i (s1, tr) h, ?_⟩
  intro inputs s tr hrun
  refine run_induction c (fun x => x.timeslot_stopping = true → x.timeslot_started = true)
    ?_ inputs State.init (s, tr) hrun (fun h => absurd h (by decide))
  intro s0 i r h hP hst
  obtain ⟨f1, f2⟩ := step_flags c s0 i r h
  cases hs0 : s0.timeslot_stopping with
  | false => exact (f1 hst hs0).2
  | true =>
    have hstart0 := hP hs0
    cases hr : r.1.timeslot_started with
    | true => rfl
    | false =>
      have := f2 hstart0 hr
      rw [hst] at this
      exact absurd this (by decide)

theorem stopping_implies_started_witness :
    run false State.init
        [Input.timeslot_open (some scenarioConfig) (some scenarioCallbacks) 0 7,
         Input.timeslot_start 1000 10000 0,
         Input.timeslot_stop] =
      some ((timeslot_stop (timeslot_start (timeslot_open false State.init
              (some scenarioConfig) (some scenarioCallbacks) 0 7).st 1000 10000 0).st).st,
        [Event.mpsl_timeslot_session_open,
         Event.mpsl_timeslot_request 7
           (Request.EARLIEST { hfclk := 1, priority := Priority.NORMAL, length_us := 1000,
                               timeout_us := 2000000 })]) ∧
    (timeslot_stop (timeslot_start (timeslot_open false State.init
        (some scenarioConfig) (some scenarioCallbacks) 0 7).st 1000 10000 0).st).st.timeslot_started
      = true :=
  ⟨rfl,
   (stopping_implies_started false).2
     [Input.timeslot_open (some scenarioConfig) (some scenarioCallbacks) 0 7,
      Input.timeslot_start 1000 10000 0,
      Input.timeslot_stop] _ _ rfl rfl⟩

/-- C15: after open, an accepted start, a slot-start handled by the worker
and one denial whose retry request the MPSL rejects (code -22), the state has
`timeslot_anchored` set and `timeslot_started` clear.  `timeslot_start` does
not clear the stale flag either: a new accepted start followed by a denial
makes the worker retry with the Normal, high-priority request of an anchored
session although no slot has started since that start. -/
theorem anchored_survives_rejected_retry :
    run false State.init
        [Input.timeslot_open (some scenarioConfig) (some scenarioCallbacks) 0 7,
         Input.timeslot_start 1000 10000 0,
         Input.mpsl_cb MpslSignal.START,
         Input.thread_iteration 0,
         Input.mpsl_cb MpslSignal.BLOCKED,
         Input.thread_iteration (-22)] =
      some ({ scenarioAnchored with
                blocked_cancelled_count := 1
                timeslot_anchored := true
                timeslot_started := false
                timeslot_sig := { signaled := false, result := SIGNAL_CODE_BLOCKED_CANCELLED }
                request_normal := { hfclk := 1, priority := Priority.HIGH, distance_us := 20000,
                                    length_us := 1000 } },
        [Event.mpsl_timeslot_session_open,
         Event.mpsl_timeslot_request 7
           (Request.EARLIEST { hfclk := 1, priority := Priority.NORMAL, length_us := 1000,
                               timeout_us := 2000000 }),
         Event.cb_start,
         Event.mpsl_timeslot_request 7
           (Request.NORMAL { hfclk := 1, priority := Priority.HIGH, distance_us := 20000,
                             length_us := 1000 }),
         Event.cb_error (Status.code (-22)),
         Event.cb_skipped 1]) ∧
    (run false
        { scenarioAnchored with
            blocked_cancelled_count := 1
            timeslot_anchored := true
            timeslot_started := false
            timeslot_sig := { signaled := false, result := SIGNAL_CODE_BLOCKED_CANCELLED }
            request_normal := { hfclk := 1, priority := Priority.HIGH, distance_us := 20000,
                                length_us := 1000 } }
        [Input.timeslot_start 1000 10000 0,
         Input.mpsl_cb MpslSignal.BLOCKED,
         Input.thread_iteration 0]).map Prod.snd =
      some [Event.mpsl_timeslot_request 7
              (Request.EARLIEST { hfclk := 1, priority := Priority.NORMAL, length_us := 1000,
                                  timeout_us := 2000000 }),
            Event.mpsl_timeslot_request 7
              (Request.NORMAL { hfclk := 1, priority := Priority.HIGH, distance_us := 20000,
                                length_us := 1000 }),
            Event.cb_skipped 1] := by
  constructor <;> rfl

/-! ## One worker pass on a raised denial -/

theorem thread_switch_BLOCKED_CANCELLED (c : Bool) (s : State) (e : Int) :
    thread_switch c s SIGNAL_CODE_BLOCKED_CANCELLED e = thread_blocked_cancelled s e := by
  simp [thread_switch, SIGNAL_CODE_BLOCKED_CANCELLED, SIGNAL_CODE_START, SIGNAL_CODE_TIMER0,
    SIGNAL_CODE_RADIO]

theorem thread_iteration_exceeded (c : Bool) (s : State) (cfg : timeslot_config)
    (cb : timeslot_cb) (e : Int)
    (halive : s.thread_returned = false)
    (hsig : s.timeslot_sig = { signaled := true, result := SIGNAL_CODE_BLOCKED_CANCELLED })
    (hcfg : s.p_timeslot_config = some cfg)
    (hcb : s.p_timeslot_callbacks = some cb) (herr : cb.error = true)
    (hgt : (s.blocked_cancelled_count + 1) % 256 > cfg.skipped_tolerance) :
    thread_iteration c s e =
      some ({ s with
              blocked_cancelled_count := (s.blocked_cancelled_count + 1) % 256
              thread_returned := true },
            [Event.cb_error
              (if s.timeslot_anchored = true then Status.neg TIMESLOT_ERROR.CANCELLED
               else Status.neg TIMESLOT_ERROR.ANCHOR_FAILED)]) := by
  have hc := call_cb_some
    { s with blocked_cancelled_count := (s.blocked_cancelled_count + 1) % 256 } cb
    timeslot_cb.error
    (Event.cb_error
      (if s.timeslot_anchored = true then Status.neg TIMESLOT_ERROR.CANCELLED
       else Status.neg TIMESLOT_ERROR.ANCHOR_FAILED)) hcb herr
  have hsw : thread_switch c s SIGNAL_CODE_BLOCKED_CANCELLED e =
      some ({ s with
              blocked_cancelled_count := (s.blocked_cancelled_count + 1) % 256
              thread_returned := true },
            [Event.cb_error
              (if s.timeslot_anchored = true then Status.neg TIMESLOT_ERROR.CANCELLED
               else Status.neg TIMESLOT_ERROR.ANCHOR_FAILED)]) := by
    rw [thread_switch_BLOCKED_CANCELLED]
    unfold thread_blocked_cancelled
    simp only [hcfg, hgt, if_true]
    split_ifs <;> simp_all
  unfold thread_iteration
  simp only [halive, hsig, Bool.not_true, Bool.or_self, Bool.false_eq_true, if_false, hsw,
    Option.map_some', if_true]

theorem timeslot_stopped_some (s : State) (cb : timeslot_cb)
    (hcb : s.p_timeslot_callbacks = some cb) (hstopped : cb.stopped = true) :
    timeslot_stopped s =
      some ({ s with
              timeslot_stopping := false
              timeslot_started := false
              timeslot_anchored := false },
            [Event.cb_stopped]) := by
  unfold timeslot_stopped
  have hc := call_cb_some
    { s with timeslot_stopping := false, timeslot_started := false, timeslot_anchored := false }
    cb timeslot_cb.stopped Event.cb_stopped hcb hstopped
  show Option.map _ (call_cb _ timeslot_cb.stopped Event.cb_stopped) = _
  rw [hc]
  rfl

theorem thread_iteration_denied_stopping (c : Bool) (s : State) (cfg : timeslot_config)
    (cb : timeslot_cb) (e : Int)
    (halive : s.thread_returned = false)
    (hsig : s.timeslot_sig = { signaled := true, result := SIGNAL_CODE_BLOCKED_CANCELLED })
    (hcfg : s.p_timeslot_config = some cfg)
    (hcb : s.p_timeslot_callbacks = some cb) (hstopped : cb.stopped = true)
    (hle : ¬ (s.blocked_cancelled_count + 1) % 256 > cfg.skipped_tolerance)
    (hstop : s.timeslot_stopping = true) :
    thread_iteration c s e =
      some ({ s with
              blocked_cancelled_count := (s.blocked_cancelled_count + 1) % 256
              timeslot_stopping := false
              timeslot_started := false
              timeslot_anchored := false
              timeslot_sig := { signaled := false, result := SIGNAL_CODE_BLOCKED_CANCELLED } },
            [Event.cb_stopped]) := by
  have h1 : thread_blocked_cancelled s e =
      timeslot_stopped
        { s with blocked_cancelled_count := (s.blocked_cancelled_count + 1) % 256 } := by
    unfold thread_blocked_cancelled
    simp only [hcfg, hle, hstop, if_true, if_false]
  have hsw : thread_switch c s SIGNAL_CODE_BLOCKED_CANCELLED e =
      some ({ s with
              blocked_cancelled_count := (s.blocked_cancelled_count + 1) % 256
              timeslot_stopping := false
              timeslot_started := false
              timeslot_anchored := false },
            [Event.cb_stopped]) := by
    rw [thread_switch_BLOCKED_CANCELLED, h1]
    exact timeslot_stopped_some _ cb hcb hstopped
  have h := thread_iteration_of_switch c s _ SIGNAL_CODE_BLOCKED_CANCELLED e _ halive hsig hsw
    halive
  rw [h]
  simp only [hsig]

theorem thread_iteration_retry (c : Bool) (s : State) (cfg : timeslot_config)
    (cb : timeslot_cb) (e : Int)
    (halive : s.thread_returned = false)
    (hsig : s.timeslot_sig = { signaled := true, result := SIGNAL_CODE_BLOCKED_CANCELLED })
    (hcfg : s.p_timeslot_config = some cfg)
    (hcb : s.p_timeslot_callbacks = some cb)
    (herr : cb.error = true) (hsk : cb.skipped = true)
    (hle : ¬ (s.blocked_cancelled_count + 1) % 256 > cfg.skipped_tolerance)
    (hstop : s.timeslot_stopping = false) :
    thread_iteration c s e =
      some ({ s with
              blocked_cancelled_count := (s.blocked_cancelled_count + 1) % 256
              timeslot_started := if e = 0 then s.timeslot_started else false
              timeslot_stopping := false
              request_normal :=
                if s.timeslot_anchored = true then
                  { s.request_normal with
                    distance_us :=
                      (s.conn_interval_us * ((s.blocked_cancelled_count + 1) % 256 + 1))
                        % 4294967296
                    priority := Priority.HIGH }
                else s.request_normal
              timeslot_sig := { signaled := false, result := SIGNAL_CODE_BLOCKED_CANCELLED } },
            [Event.mpsl_timeslot_request s.mpsl_session_id
              (if s.timeslot_anchored = true then
                 Request.NORMAL
                   { s.request_normal with
                     distance_us :=
                       (s.conn_interval_us * ((s.blocked_cancelled_count + 1) % 256 + 1))
                         % 4294967296
                     priority := Priority.HIGH }
               else Request.EARLIEST s.request_earliest)]
            ++ (if e = 0 then [] else [Event.cb_error (Status.code e)])
            ++ [Event.cb_skipped ((s.blocked_cancelled_count + 1) % 256)]) := by
  have h1 : thread_blocked_cancelled s e =
      thread_retry { s with blocked_cancelled_count := (s.blocked_cancelled_count + 1) % 256 }
        e := by
    unfold thread_blocked_cancelled
    simp only [hcfg, hle, hstop, if_false, Bool.false_eq_true]
  have hcall : ∀ (s2 : State) (m : timeslot_cb → Bool) (ev : Event),
      s2.p_timeslot_callbacks = some cb → m cb = true → call_cb s2 m ev = some [ev] :=
    fun s2 m ev h2 h3 => call_cb_some s2 cb m ev h2 h3
  unfold thread_iteration
  simp only [halive, hsig, Bool.not_true, Bool.or_self, Bool.false_eq_true, if_false,
    thread_switch_BLOCKED_CANCELLED, h1]
  unfold thread_retry
  by_cases ha : s.timeslot_anchored = true <;> by_cases he : e = 0
  all_goals
    simp only [ha, he, if_true, if_false, ne_eq, not_true_eq_false, not_false_eq_true,
      Bool.false_eq_true]
  all_goals
    simp only [hcall, hcb, hsk, herr, hstop, Option.map_some', Option.some_bind,
      Option.bind_some, Bool.false_eq_true, if_false]
  all_goals rfl

/-- C12: in a non-stopping state, when the worker handles a raised denial
whose incremented counter `n` is within tolerance, the pass makes the retry
request, then, only if the MPSL returned a non-zero code, `error` with exactly
that code, then `skipped(n)`, whatever the MPSL returned; after a non-zero
code `timeslot_started` and `timeslot_stopping` are both false. -/
theorem retry_rejected (c : Bool) (s : State) (cfg : timeslot_config) (cb : timeslot_cb)
    (halive : s.thread_returned = false)
    (hsig : s.timeslot_sig = { signaled := true, result := SIGNAL_CODE_BLOCKED_CANCELLED })
    (hcfg : s.p_timeslot_config = some cfg)
    (hcb : s.p_timeslot_callbacks = some cb)
    (herr : cb.error = true) (hsk : cb.skipped = true)
    (hle : ¬ (s.blocked_cancelled_count + 1) % 256 > cfg.skipped_tolerance)
    (hstop : s.timeslot_stopping = false) :
    ∃ req, ∀ mpsl_ret : Int, ∃ s1,
      thread_iteration c s mpsl_ret =
        some (s1,
          [Event.mpsl_timeslot_request s.mpsl_session_id req]
          ++ (if mpsl_ret = 0 then [] else [Event.cb_error (Status.code mpsl_ret)])
          ++ [Event.cb_skipped ((s.blocked_cancelled_count + 1) % 256)]) ∧
      s1.blocked_cancelled_count = (s.blocked_cancelled_count + 1) % 256 ∧
      (mpsl_ret ≠ 0 → s1.timeslot_started = false ∧ s1.timeslot_stopping = false) := by
  refine ⟨_, fun mpsl_ret => ⟨_, thread_iteration_retry c s cfg cb mpsl_ret halive hsig hcfg hcb
    herr hsk hle hstop, rfl, ?_⟩⟩
  intro hne
  simp only [hne, if_false, and_self]

theorem retry_rejected_witness :
    ∃ req, ∀ mpsl_ret : Int, ∃ s1,
      thread_iteration false (scenarioDenied 0) mpsl_ret =
        some (s1,
          [Event.mpsl_timeslot_request 7 req]
          ++ (if mpsl_ret = 0 then [] else [Event.cb_error (Status.code mpsl_ret)])
          ++ [Event.cb_skipped 1]) ∧
      s1.blocked_cancelled_count = 1 ∧
      (mpsl_ret ≠ 0 → s1.timeslot_started = false ∧ s1.timeslot_stopping = false) :=
  retry_rejected false (scenarioDenied 0) scenarioConfig scenarioCallbacks
    rfl rfl rfl rfl rfl rfl (by decide) rfl

set_option maxRecDepth 100000 in
/-- C13, as stated, fails at the counter's maximum: in the anchored scenario
with tolerance 255, 255 handled denials bring the counter to 255, and the
next handled denial makes it 0, not 256 (and the run goes on retrying). -/
theorem counter_wraps_at_255 :
    (run false scenarioMaxTolerance (denials (List.replicate 255 (true, 0)))).map
        (fun r => (r.1.blocked_cancelled_count, r.1.thread_returned)) = some (255, false) ∧
    (run false scenarioMaxTolerance (denials (List.replicate 256 (true, 0)))).map
        (fun r => (r.1.blocked_cancelled_count, r.1.thread_returned)) = some (0, false) := by
  constructor <;> rfl

/-- C13, amended: each denial the worker handles (callback table complete)
makes `blocked_cancelled_count` equal to its old value plus one reduced modulo
256: exactly one greater for every old value below 255, and 0 when the old
value is 255, whichever branch (tolerance exceeded, stop pending, retry) the
pass then takes. -/
theorem denial_increments_mod_256 (c : Bool) (s : State) (cfg : timeslot_config)
    (cb : timeslot_cb) (mpsl_ret : Int)
    (halive : s.thread_returned = false)
    (hsig : s.timeslot_sig = { signaled := true, result := SIGNAL_CODE_BLOCKED_CANCELLED })
    (hcfg : s.p_timeslot_config = some cfg)
    (hcb : s.p_timeslot_callbacks = some cb)
    (herr : cb.error = true) (hsk : cb.skipped = true) (hstopped : cb.stopped = true) :
    ∃ s1 tr, thread_iteration c s mpsl_ret = some (s1, tr) ∧
      s1.blocked_cancelled_count = (s.blocked_cancelled_count + 1) % 256 ∧
      (s.blocked_cancelled_count < 255 →
        s1.blocked_cancelled_count = s.blocked_cancelled_count + 1) ∧
      (s.blocked_cancelled_count = 255 → s1.blocked_cancelled_count = 0) := by
  have key : ∃ s1 tr, thread_iteration c s mpsl_ret = some (s1, tr) ∧
      s1.blocked_cancelled_count = (s.blocked_cancelled_count + 1) % 256 := by
    by_cases hgt : (s.blocked_cancelled_count + 1) % 256 > cfg.skipped_tolerance
    · exact ⟨_, _, thread_iteration_exceeded c s cfg cb mpsl_ret halive hsig hcfg hcb herr hgt,
        rfl⟩
    · cases hstop : s.timeslot_stopping with
      | true =>
        exact ⟨_, _, thread_iteration_denied_stopping c s cfg cb mpsl_ret halive hsig hcfg hcb
          hstopped hgt hstop, rfl⟩
      | false =>
        exact ⟨_, _, thread_iteration_retry c s cfg cb mpsl_ret halive hsig hcfg hcb herr hsk
          hgt hstop, rfl⟩
  obtain ⟨s1, tr, h1, h2⟩ := key
  refine ⟨s1, tr, h1, h2, ?_, ?_⟩
  · intro hlt
    rw [h2]
    omega
  · intro heq
    rw [h2, heq]

theorem denial_increments_mod_256_witness :
    ∃ s1 tr, thread_iteration false (scenarioDenied 2) 0 = some (s1, tr) ∧
      s1.blocked_cancelled_count = 3 := by
  obtain ⟨s1, tr, h1, -, h3, -⟩ :=
    denial_increments_mod_256 false (scenarioDenied 2) scenarioConfig scenarioCallbacks 0
      rfl rfl rfl rfl rfl rfl rfl
  exact ⟨s1, tr, h1, h3 (by decide)⟩

/-! ## Once the worker has returned, no callback follows -/

theorem run_no_callback_after_return (c : Bool) (later : List Input) :
    ∀ (s : State), s.thread_returned = true → s.session_open = true →
      s.p_timeslot_config ≠ none →
      ∃ s1 tr, run c s later = some (s1, tr) ∧ ∀ ev ∈ tr, ev.isCallback = false := by
  induction later with
  | nil =>
    intro s _ _ _
    exact ⟨s, [], rfl, by simp⟩
  | cons i rest ih =>
    intro s hret ho hcfg
    have hstep : ∃ s0 tr0, step c s i = some (s0, tr0) ∧ s0.thread_returned = true ∧
        s0.session_open = true ∧ s0.p_timeslot_config ≠ none ∧
        ∀ ev ∈ tr0, ev.isCallback = false := by
      cases i with
      | timeslot_open p_config p_cb e id =>
        refine ⟨s, [], ?_, hret, ho, hcfg, by simp⟩
        simp only [step, timeslot_open, ho, if_true]
      | timeslot_start len_us interval_us e =>
        refine ⟨_, _, rfl, ?_, ?_, ?_, timeslot_start_trace s len_us interval_us e⟩
        · unfold timeslot_start; split_ifs <;> exact hret
        · unfold timeslot_start; split_ifs <;> exact ho
        · unfold timeslot_start; split_ifs <;> exact hcfg
      | timeslot_stop =>
        refine ⟨_, _, rfl, ?_, ?_, ?_, ?_⟩
        · unfold timeslot_stop; split_ifs <;> exact hret
        · unfold timeslot_stop; split_ifs <;> exact ho
        · unfold timeslot_stop; split_ifs <;> exact hcfg
        · rw [timeslot_stop_trace]; simp
      | mpsl_cb sig =>
        obtain ⟨r, hr, -⟩ := mpsl_cb_total c s sig hcfg
        have hf := mpsl_cb_frame c s sig r hr
        refine ⟨r.st, r.trace, ?_, ?_, ?_, ?_, ?_⟩
        · simp only [step, hr, Option.map_some']
        · rw [hf.2.2.2.2.2.2.2.2.2.2.2.2.1]; exact hret
        · rw [hf.2.2.2.2.2.1]; exact ho
        · rw [hf.1]; exact hcfg
        · intro ev hev
          rcases mpsl_cb_trace c s sig r hr with h1 | h1
          · rw [h1] at hev; exact absurd hev (by simp)
          · rw [h1, List.mem_singleton] at hev
            subst hev
            rfl
      | thread_iteration e =>
        refine ⟨s, [], ?_, hret, ho, hcfg, by simp⟩
        simp only [step, thread_iteration_returned c s e hret]
    obtain ⟨s0, tr0, h0, a1, a2, a3, a4⟩ := hstep
    obtain ⟨s1, tr, h1, h2⟩ := ih s0 a1 a2 a3
    refine ⟨s1, tr0 ++ tr, ?_, ?_⟩
    · simp only [run, h0, h1]
    · intro ev hev
      rcases List.mem_append.mp hev with h | h
      · exact a4 ev h
      · exact h2 ev h

/-- C20: when the worker's handling of a raised denial pushes the counter
above `skipped_tolerance`, the pass calls `error` once, the thread function
returns, and only the counter has changed: `session_open`, `timeslot_started`,
`timeslot_stopping` and `timeslot_anchored` are as before.  If the session was
open and started, a later `timeslot_start` returns
`-TIMESLOT_ERROR_TIMESLOT_ALREADY_STARTED` and makes no request, a later
`timeslot_stop` returns 0, and after it no sequence of inputs whatsoever
produces a `stopped` (or any other) callback. -/
theorem tolerance_exceeded_leaves_flags (c : Bool) (s : State) (cfg : timeslot_config)
    (cb : timeslot_cb) (mpsl_ret : Int)
    (halive : s.thread_returned = false)
    (hsig : s.timeslot_sig = { signaled := true, result := SIGNAL_CODE_BLOCKED_CANCELLED })
    (hcfg : s.p_timeslot_config = some cfg)
    (hcb : s.p_timeslot_callbacks = some cb) (herr : cb.error = true)
    (hgt : (s.blocked_cancelled_count + 1) % 256 > cfg.skipped_tolerance) :
    ∃ s1 reason, thread_iteration c s mpsl_ret = some (s1, [Event.cb_error reason]) ∧
      s1 = { s with
             blocked_cancelled_count := (s.blocked_cancelled_count + 1) % 256
             thread_returned := true } ∧
      s1.session_open = s.session_open ∧
      s1.timeslot_started = s.timeslot_started ∧
      s1.timeslot_stopping = s.timeslot_stopping ∧
      s1.timeslot_anchored = s.timeslot_anchored ∧
      (s.session_open = true → s.timeslot_started = true →
        (∀ (len_us interval_us : Nat) (ret2 : Int),
          timeslot_start s1 len_us interval_us ret2 =
            { st := s1, ret := Status.neg TIMESLOT_ERROR.TIMESLOT_ALREADY_STARTED,
              trace := [] }) ∧
        (timeslot_stop s1).ret = Status.code 0 ∧
        ∀ later : List Input, ∃ s2 tr,
          run c (timeslot_stop s1).st later = some (s2, tr) ∧
          ∀ ev ∈ tr, ev.isCallback = false) := by
  refine ⟨_, _, thread_iteration_exceeded c s cfg cb mpsl_ret halive hsig hcfg hcb herr hgt,
    rfl, rfl, rfl, rfl, rfl, ?_⟩
  intro ho hs
  have hstop : timeslot_stop
      { s with
        blocked_cancelled_count := (s.blocked_cancelled_count + 1) % 256
        thread_returned := true } =
      { st := { s with
                blocked_cancelled_count := (s.blocked_cancelled_count + 1) % 256
                thread_returned := true
                timeslot_stopping := true },
        ret := Status.code 0, trace := [] } := by
    simp only [timeslot_stop, ho, hs, Bool.not_true, Bool.or_self, Bool.false_eq_true, if_false]
  refine ⟨?_, ?_, ?_⟩
  · intro len_us interval_us ret2
    simp only [timeslot_start, hs, Bool.or_true, Bool.true_or, if_true]
  · rw [hstop]
  · intro later
    rw [hstop]
    exact run_no_callback_after_return c later _ rfl ho (by simp [hcfg])

theorem tolerance_exceeded_leaves_flags_witness :
    ∃ s1 reason,
      thread_iteration false (scenarioDenied 3) 0 = some (s1, [Event.cb_error reason]) ∧
      s1.timeslot_started = true ∧
      (timeslot_stop s1).ret = Status.code 0 := by
  obtain ⟨s1, reason, h1, -, -, h3, -, -, h6⟩ :=
    tolerance_exceeded_leaves_flags false (scenarioDenied 3) scenarioConfig scenarioCallbacks 0
      rfl rfl rfl rfl rfl (by decide)
  exact ⟨s1, reason, h1, h3, (h6 rfl rfl).2.1⟩

/-! ## Runs of consecutive denials -/

theorem run_append (c : Bool) (l1 l2 : List Input) :
    ∀ (s s1 s2 : State) (tr1 tr2 : List Event),
      run c s l1 = some (s1, tr1) → run c s1 l2 = some (s2, tr2) →
      run c s (l1 ++ l2) = some (s2, tr1 ++ tr2) := by
  induction l1 with
  | nil =>
    intro s s1 s2 tr1 tr2 h1 h2
    simp only [run, Option.some.injEq, Prod.mk.injEq] at h1
    obtain ⟨rfl, rfl⟩ := h1
    simpa using h2
  | cons i rest ih =>
    intro s s1 s2 tr1 tr2 h1 h2
    simp only [run] at h1
    cases hs : step c s i with
    | none => simp [hs] at h1
    | some r0 =>
      obtain ⟨s0, tr0⟩ := r0
      simp only [hs] at h1
      cases hr : run c s0 rest with
      | none => simp [hr] at h1
      | some r1 =>
        obtain ⟨sa, tra⟩ := r1
        simp only [hr, Option.some.injEq, Prod.mk.injEq] at h1
        obtain ⟨rfl, rfl⟩ := h1
        have := ih s0 sa s2 tra tr2 hr h2
        show run c s (i :: (rest ++ l2)) = _
        simp only [run, hs, this, List.append_assoc]

theorem retryDistances_lower (interval : Nat) (k : Nat) :
    ∀ (c d : Nat), d ∈ retryDistances interval c k → interval * (c + 2) ≤ d := by
  induction k with
  | zero => intro c d h; simp [retryDistances] at h
  | succ k ih =>
    intro c d h
    simp only [retryDistances, List.mem_cons] at h
    rcases h with h | h
    · rw [h]
    · have := ih (c + 1) d h
      have hmono : interval * (c + 2) ≤ interval * (c + 1 + 2) :=
        Nat.mul_le_mul_left _ (by omega)
      exact le_trans hmono this

theorem retryDistances_pairwise (interval : Nat) (hpos : 0 < interval) (k : Nat) :
    ∀ c : Nat, List.Pairwise (fun a b => a < b) (retryDistances interval c k) := by
  induction k with
  | zero => intro c; simp [retryDistances]
  | succ k ih =>
    intro c
    simp only [retryDistances, List.pairwise_cons]
    refine ⟨?_, ih (c + 1)⟩
    intro d hd
    have h1 := retryDistances_lower interval k (c + 1) d hd
    have h2 : interval * (c + 2) < interval * (c + 1 + 2) :=
      Nat.mul_lt_mul_of_pos_left (by omega) hpos
    exact lt_of_lt_of_le h2 h1

theorem denial_step (c : Bool) (s : State) (cfg : timeslot_config) (cb : timeslot_cb)
    (b : Bool) (e : Int)
    (halive : s.thread_returned = false)
    (hcfg : s.p_timeslot_config = some cfg)
    (hcb : s.p_timeslot_callbacks = some cb)
    (herr : cb.error = true) (hsk : cb.skipped = true)
    (hanch : s.timeslot_anchored = true) (hstop : s.timeslot_stopping = false)
    (htol : s.blocked_cancelled_count + 1 ≤ cfg.skipped_tolerance)
    (hwrap : s.blocked_cancelled_count + 1 < 256) :
    ∃ s1 tr, run c s (denials [(b, e)]) = some (s1, tr) ∧
      tr.filterMap Event.retryDistance =
        [(s.conn_interval_us * (s.blocked_cancelled_count + 2)) % 4294967296] ∧
      s1.thread_returned = false ∧ s1.p_timeslot_config = some cfg ∧
      s1.p_timeslot_callbacks = some cb ∧ s1.timeslot_anchored = true ∧
      s1.timeslot_stopping = false ∧
      s1.blocked_cancelled_count = s.blocked_cancelled_count + 1 ∧
      s1.conn_interval_us = s.conn_interval_us := by
  have hmod : (s.blocked_cancelled_count + 1) % 256 = s.blocked_cancelled_count + 1 :=
    Nat.mod_eq_of_lt hwrap
  have h1 : mpsl_cb c s (if b = true then MpslSignal.BLOCKED else MpslSignal.CANCELLED) =
      some { st := k_poll_signal_raise s SIGNAL_CODE_BLOCKED_CANCELLED,
             action := Action.NONE, trace := [] } := by
    cases b <;> rfl
  have hle : ¬ ((k_poll_signal_raise s SIGNAL_CODE_BLOCKED_CANCELLED).blocked_cancelled_count
      + 1) % 256 > cfg.skipped_tolerance := by
    show ¬ (s.blocked_cancelled_count + 1) % 256 > cfg.skipped_tolerance
    rw [hmod]
    omega
  have h2 := thread_iteration_retry c (k_poll_signal_raise s SIGNAL_CODE_BLOCKED_CANCELLED)
    cfg cb e halive rfl hcfg hcb herr hsk hle hstop
  obtain ⟨s2, tr2, h3, h4, p1, p2, p3, p4, p5, p6, p7⟩ :
      ∃ s2 tr2, thread_iteration c (k_poll_signal_raise s SIGNAL_CODE_BLOCKED_CANCELLED) e =
          some (s2, tr2) ∧
        tr2.filterMap Event.retryDistance =
          [(s.conn_interval_us * (s.blocked_cancelled_count + 2)) % 4294967296] ∧
        s2.thread_returned = false ∧ s2.p_timeslot_config = some cfg ∧
        s2.p_timeslot_callbacks = some cb ∧ s2.timeslot_anchored = true ∧
        s2.timeslot_stopping = false ∧
        s2.blocked_cancelled_count = s.blocked_cancelled_count + 1 ∧
        s2.conn_interval_us = s.conn_interval_us := by
    refine ⟨_, _, h2, ?_, halive, hcfg, hcb, hanch, rfl, hmod, rfl⟩
    simp only [k_poll_signal_raise, hanch, if_true, hmod]
    by_cases he : e = 0
    · simp [he, Event.retryDistance]
    · simp [he, Event.retryDistance]
  refine ⟨s2, tr2, ?_, h4, p1, p2, p3, p4, p5, p6, p7⟩
  simp only [denials, run, step, h1, Option.map_some', h3, List.nil_append, List.append_nil]

theorem retryDistances_length (interval : Nat) (k : Nat) :
    ∀ c : Nat, (retryDistances interval c k).length = k := by
  induction k with
  | zero => intro c; rfl
  | succ k ih => intro c; simp [retryDistances, ih]

theorem denials_run (c : Bool) (cfg : timeslot_config) (cb : timeslot_cb)
    (herr : cb.error = true) (hsk : cb.skipped = true) (ds : List (Bool × Int)) :
    ∀ s : State, s.thread_returned = false → s.p_timeslot_config = some cfg →
      s.p_timeslot_callbacks = some cb → s.timeslot_anchored = true →
      s.timeslot_stopping = false →
      s.blocked_cancelled_count + ds.length ≤ cfg.skipped_tolerance →
      s.blocked_cancelled_count + ds.length < 256 →
      s.conn_interval_us * (s.blocked_cancelled_count + ds.length + 1) < 4294967296 →
      ∃ s1 tr, run c s (denials ds) = some (s1, tr) ∧
        tr.filterMap Event.retryDistance =
          retryDistances s.conn_interval_us s.blocked_cancelled_count ds.length := by
  induction ds with
  | nil =>
    intro s _ _ _ _ _ _ _ _
    exact ⟨s, [], rfl, rfl⟩
  | cons d rest ih =>
    intro s halive hcfg hcb hanch hstop htol hwrap hfit
    obtain ⟨b, e⟩ := d
    simp only [List.length_cons] at htol hwrap hfit
    obtain ⟨s1, tr1, h1, h2, p1, p2, p3, p4, p5, p6, p7⟩ :=
      denial_step c s cfg cb b e halive hcfg hcb herr hsk hanch hstop (by omega) (by omega)
    have hsmall : s.conn_interval_us * (s.blocked_cancelled_count + 2) < 4294967296 := by
      have hmono : s.conn_interval_us * (s.blocked_cancelled_count + 2) ≤
          s.conn_interval_us * (s.blocked_cancelled_count + (rest.length + 1) + 1) :=
        Nat.mul_le_mul_left _ (by omega)
      exact lt_of_le_of_lt hmono hfit
    rw [Nat.mod_eq_of_lt hsmall] at h2
    have hfit1 : s1.conn_interval_us * (s1.blocked_cancelled_count + rest.length + 1)
        < 4294967296 := by
      rw [p6, p7]
      have heq : s.blocked_cancelled_count + 1 + rest.length + 1 =
          s.blocked_cancelled_count + (rest.length + 1) + 1 := by omega
      rw [heq]
      exact hfit
    obtain ⟨s2, tr2, h3, h4⟩ :=
      ih s1 p1 p2 p3 p4 p5 (by rw [p6]; omega) (by rw [p6]; omega) hfit1
    refine ⟨s2, tr1 ++ tr2, ?_, ?_⟩
    · exact run_append c (denials [(b, e)]) (denials rest) s s1 s2 tr1 tr2 h1 h3
    · rw [List.filterMap_append, h2, h4, p6, p7]
      rfl

/-- C14, as stated, fails: with interval 2147483648 us and tolerance 3, the
three retries of an anchored, non-stopping session have distances 0,
2147483648 and 0 (the products wrap in 32-bit arithmetic): the third is not
greater than the second, and the first is not positive. -/
theorem retry_distance_not_increasing :
    (run false State.init
        ([Input.timeslot_open (some scenarioConfig) (some scenarioCallbacks) 0 7,
          Input.timeslot_start 1000 2147483648 0,
          Input.mpsl_cb MpslSignal.START,
          Input.thread_iteration 0]
         ++ denials [(true, 0), (true, 0), (true, 0)])).map
        (fun r => (r.2.filterMap Event.retryDistance, r.1.timeslot_anchored,
                   r.1.timeslot_stopping, r.1.blocked_cancelled_count)) =
      some ([0, 2147483648, 0], true, false, 3) ∧
    ¬ ((2147483648 : Nat) < 0) := by
  constructor
  · rfl
  · decide

/-- C14, amended: for an anchored, non-stopping session with a live worker
(callback table with `error` and `skipped`), a positive interval, and a run of
consecutive denials that stays within tolerance, does not wrap the 8-bit
counter and keeps `interval * (count + 1)` below 2^32, the run is defined,
each denial makes one retry Normal request, their distances are
`interval * (count + 1)` for the successive counts, and each distance is
strictly greater than every earlier one of the run. -/
theorem retry_distances_increase (c : Bool) (ds : List (Bool × Int)) (s : State)
    (cfg : timeslot_config) (cb : timeslot_cb)
    (halive : s.thread_returned = false)
    (hcfg : s.p_timeslot_config = some cfg)
    (hcb : s.p_timeslot_callbacks = some cb)
    (herr : cb.error = true) (hsk : cb.skipped = true)
    (hanch : s.timeslot_anchored = true) (hstop : s.timeslot_stopping = false)
    (htol : s.blocked_cancelled_count + ds.length ≤ cfg.skipped_tolerance)
    (hwrap : s.blocked_cancelled_count + ds.length < 256)
    (hpos : 0 < s.conn_interval_us)
    (hfit : s.conn_interval_us * (s.blocked_cancelled_count + ds.length + 1) < 4294967296) :
    ∃ s1 tr, run c s (denials ds) = some (s1, tr) ∧
      tr.filterMap Event.retryDistance =
        retryDistances s.conn_interval_us s.blocked_cancelled_count ds.length ∧
      (tr.filterMap Event.retryDistance).length = ds.length ∧
      List.Pairwise (fun a b => a < b) (tr.filterMap Event.retryDistance) := by
  obtain ⟨s1, tr, h1, h2⟩ :=
    denials_run c cfg cb herr hsk ds s halive hcfg hcb hanch hstop htol hwrap hfit
  refine ⟨s1, tr, h1, h2, ?_, ?_⟩
  · rw [h2, retryDistances_length]
  · rw [h2]
    exact retryDistances_pairwise _ hpos _ _

theorem retry_distances_increase_witness :
    ∃ s1 tr, run false scenarioAnchored (denials [(true, 0), (false, 0), (true, -22)]) =
        some (s1, tr) ∧
      tr.filterMap Event.retryDistance = [20000, 30000, 40000] ∧
      List.Pairwise (fun a b => a < b) (tr.filterMap Event.retryDistance) := by
  obtain ⟨s1, tr, h1, h2, -, h4⟩ :=
    retry_distances_increase false [(true, 0), (false, 0), (true, -22)] scenarioAnchored
      scenarioConfig scenarioCallbacks rfl rfl rfl rfl rfl rfl rfl
      (by decide) (by decide) (by decide) (by decide)
  exact ⟨s1, tr, h1, h2, h4⟩

end Timeslot
